import Mathlib

/-!
# Naukri Profile Booster: a shallow embedding of the extension's logic

The browser extension consists of a background script (`background.js`), a content
script (`content.js`), a popup (`popup.js`) and helpers (`utils/trial.js`,
`utils/storage.js`).  The host
(browser) is modelled by explicit arguments: every value the code obtains from the
host (a reading of `Date.now()`, the answer of a `chrome.*` call, the page's DOM) is
an argument of the function that asks for it, and every effect on the host
(`chrome.storage.local`, alarms, tabs, messages, clicks) is recorded in the state.

Conventions.
* JavaScript numbers that hold timestamps are integers (`Int`), in milliseconds.
* A string that comes from the page is a `JsString`, a sequence of UTF-16 code units; a
  string literal in the place of a `JsString` stands for its UTF-16 encoding.  The constants
  of the program (storage keys, statuses, tag names, messages of errors) are Lean strings.
* A host call that may reject is an `Except String α` argument; `Except.error` is a
  thrown exception (a rejected promise).
* The `chrome.storage.local` and `chrome.alarms` calls of the background script, and its
  opening of the paywall page, are total.
-/

namespace NaukriBooster

/-! ## JavaScript strings -/

/-- A JavaScript string: the sequence of its UTF-16 code units (numbers below 65536; a
character outside the Basic Multilingual Plane is a pair of surrogate units).  The strings
that the page provides, and those made from them, are of this type. -/
structure JsString where
  units : List Nat
  deriving DecidableEq, Repr

/-- The UTF-16 code units of one character. -/
def utf16 (c : Char) : List Nat :=
  if c.toNat < 0x10000 then [c.toNat]
  else [0xD800 + (c.toNat - 0x10000) / 0x400, 0xDC00 + (c.toNat - 0x10000) % 0x400]

/-- The JavaScript string that the literal `s` denotes. -/
def JsString.ofString (s : String) : JsString :=
  ⟨s.data.flatMap utf16⟩

instance : Coe String JsString := ⟨JsString.ofString⟩

/-! ## JavaScript values -/

/-- The JavaScript values that travel through storage and messages. -/
inductive JsVal where
  | undefined
  | null
  | bool (b : Bool)
  | num (n : Int)
  | str (s : JsString)
  | object
  deriving DecidableEq, Repr

/-- JavaScript truthiness (`Boolean(v)`, `if (v)`, `v || w`, `v ? a : b`). -/
def JsVal.truthy : JsVal → Bool
  | .undefined => false
  | .null => false
  | .bool b => b
  | .num n => decide (n ≠ 0)
  | .str s => decide (s ≠ "")
  | .object => true

/-- The JavaScript expression `v || w`. -/
def JsVal.orElse (v w : JsVal) : JsVal :=
  if v.truthy then v else w

/-- Truthiness of a number that may be `undefined` (a missing key or property). -/
def numTruthy : Option Int → Bool
  | some n => decide (n ≠ 0)
  | none => false

/-! ## utils/storage.js and the host state of the background script -/

/-- The contents of `chrome.storage.local` under the keys of `STORAGE_KEYS` that the
background script reads or writes.  `none` / `JsVal.undefined` is a missing key.
`installTimestamp`, `lastRefreshAt` and `nextRefreshAt` are only ever written with
numbers, `lastRefreshStatus` and `loginStatus` only with string constants. -/
structure Store where
  installTimestamp : Option Int := none
  isPaid : JsVal := JsVal.undefined
  lastRefreshAt : Option Int := none
  lastRefreshStatus : Option String := none
  loginStatus : Option String := none
  profileViews : JsVal := JsVal.undefined
  nextRefreshAt : Option Int := none
  deriving DecidableEq, Repr

/-- An alarm as reported by `chrome.alarms.get`. -/
structure Alarm where
  name : String
  scheduledTime : Int
  periodInMinutes : Option Int
  deriving DecidableEq, Repr

/-- The effects of the background script on the host, as they are requested. -/
inductive Effect where
  | storageSet (keys : List String)
  | alarmsCreate (name : String) (when : Int) (periodInMinutes : Int)
  | tabsCreate (url : String)
  | tabsSendMessage (tabId : Option Int) (type : String) (mode : String)
  | tabsRemove (tabId : Int)
  deriving DecidableEq, Repr

/-- The host state the background script works on: the local storage, the alarms of
the extension, and the log of the effects requested so far (oldest first). -/
structure World where
  store : Store := {}
  alarms : List Alarm := []
  log : List Effect := []
  deriving DecidableEq, Repr

/-- `Storage.set(values)`: the keys of `values` are logged and `update` writes them. -/
def World.storageSet (w : World) (keys : List String) (update : Store → Store) : World :=
  { w with store := update w.store, log := w.log ++ [Effect.storageSet keys] }

/-- `chrome.alarms.get(name)`. -/
def World.alarmsGet (w : World) (name : String) : Option Alarm :=
  w.alarms.find? (fun a => a.name = name)

/-- `chrome.alarms.create(name, { when, periodInMinutes })`: an alarm of the same name
is replaced. -/
def World.alarmsCreate (w : World) (name : String) (when period : Int) : World :=
  { w with
    alarms := { name := name, scheduledTime := when, periodInMinutes := some period }
      :: w.alarms.filter (fun a => a.name ≠ name)
    log := w.log ++ [Effect.alarmsCreate name when period] }

/-! ## utils/trial.js -/

def TRIAL_DAYS : Int := 3

def DAY_MS : Int := 24 * 60 * 60 * 1000

/-- `ensureInstallTimestamp()`.  `now` is what `Date.now()` answers; the clock is read
only when the stored value is falsy (missing, or the number zero). -/
def ensureInstallTimestamp (now : Int) (w : World) : Int × World :=
  if numTruthy w.store.installTimestamp then
    (w.store.installTimestamp.getD 0, w)
  else
    (now, w.storageSet ["installTimestamp"] (fun s => { s with installTimestamp := some now }))

/-- The object returned by `getTrialState()`. -/
structure TrialState where
  installTimestamp : Int
  expiresAt : Int
  remainingMs : Int
  remainingDays : Int
  isActive : Bool
  deriving DecidableEq, Repr

/-- `Math.ceil(a / b)` for integers `a` and `b`, `b` positive. -/
def mathCeilDiv (a b : Int) : Int := -((-a) / b)

/-- `getTrialState()`.  `now₁` is the clock reading available to
`ensureInstallTimestamp`, `now₂` the one made by `getTrialState` itself. -/
def getTrialState (now₁ now₂ : Int) (w : World) : TrialState × World :=
  let (installTimestamp, w₁) := ensureInstallTimestamp now₁ w
  let expiresAt := installTimestamp + TRIAL_DAYS * DAY_MS
  let remainingMs := max 0 (expiresAt - now₂)
  let remainingDays := mathCeilDiv remainingMs DAY_MS
  let isActive := decide (remainingMs > 0)
  ({ installTimestamp := installTimestamp
     expiresAt := expiresAt
     remainingMs := remainingMs
     remainingDays := remainingDays
     isActive := isActive }, w₁)

/-- `hasManualRefreshAccess()`: `Boolean(isActive || isPaid)`, where a missing `isPaid`
key defaults to `false`. -/
def hasManualRefreshAccess (now₁ now₂ : Int) (w : World) : Bool × World :=
  let (trial, w₁) := getTrialState now₁ now₂ w
  let isPaid := if w.store.isPaid = JsVal.undefined then JsVal.bool false else w.store.isPaid
  (((JsVal.bool trial.isActive).orElse isPaid).truthy, w₁)

/-! ## background.js -/

def DAILY_ALARM_NAME : String := "dailyProfileRefresh"

def PROFILE_URL : String := "https://www.naukri.com/mnjuser/profile"

/-- The URL `chrome.runtime.getURL("paywall.html")`, up to the extension's origin. -/
def PAYWALL_URL : String := "paywall.html"

/-- `scheduleDailyRefresh()`, with `now` the reading of `Date.now()`. -/
def scheduleDailyRefresh (now : Int) (w : World) : World :=
  let firstRunAt := now + 24 * 60 * 60 * 1000
  let w₁ := w.alarmsCreate DAILY_ALARM_NAME firstRunAt (24 * 60)
  w₁.storageSet ["nextRefreshAt"] (fun s => { s with nextRefreshAt := some firstRunAt })

/-- `ensureAlarm()`, with `now` the reading of `Date.now()` (made only when the alarm
reports a falsy `scheduledTime`). -/
def ensureAlarm (now : Int) (w : World) : World :=
  match w.alarmsGet DAILY_ALARM_NAME with
  | some alarm =>
    let next := if alarm.scheduledTime ≠ 0 then alarm.scheduledTime
      else now + 24 * 60 * 60 * 1000
    w.storageSet ["nextRefreshAt"] (fun s => { s with nextRefreshAt := some next })
  | none => scheduleDailyRefresh now w

/-- The reply of the content script as the background script sees it: the three
properties it reads, each possibly missing. -/
structure Response where
  success : JsVal := JsVal.undefined
  isLoggedIn : JsVal := JsVal.undefined
  profileViews : JsVal := JsVal.undefined
  deriving DecidableEq, Repr

/-- The expression `response?.property`, where `none` is the reply `undefined`. -/
def readReply (response : Option Response) (property : Response → JsVal) : JsVal :=
  match response with
  | some r => property r
  | none => JsVal.undefined

/-- What the host answers during one run of `runRefreshFlow`. -/
structure RefreshHost where
  /-- `chrome.tabs.create(...)`: the `id` of the new tab, or a rejection. -/
  createTab : Except String (Option Int)
  /-- The readings of `Date.now()` made by `waitForTabReady`, in order. -/
  clock : Nat → Int
  /-- The `status` of the tab at each `chrome.tabs.get`, in order, or a rejection. -/
  tabStatus : Nat → Except String String
  /-- `chrome.tabs.sendMessage(...)`: the reply (`none` is `undefined`), or a rejection. -/
  response : Except String (Option Response)
  /-- The reading of `Date.now()` when the outcome is stored. -/
  now : Int
  /-- Whether `chrome.tabs.remove` rejects. -/
  removeFails : Bool

/-- The loop of `waitForTabReady`: `i` counts the iterations made so far and `start`
is the first clock reading.  `none` means that `fuel` iterations did not suffice. -/
def waitLoop (h : RefreshHost) (start timeoutMs : Int) : Nat → Nat → Option (Except String Unit)
  | 0, _ => none
  | fuel + 1, i =>
    if h.clock (i + 1) - start < timeoutMs then
      match h.tabStatus i with
      | Except.error e => some (Except.error e)
      | Except.ok status =>
        if status = "complete" then some (Except.ok ())
        else waitLoop h start timeoutMs fuel (i + 1)
    else some (Except.error "Timed out while waiting for profile tab to load.")

/-- `waitForTabReady(tabId)` with the default `timeoutMs = 20000`. -/
def waitForTabReady (h : RefreshHost) (fuel : Nat) : Option (Except String Unit) :=
  waitLoop h (h.clock 0) 20000 fuel 0

/-- The `try` block of `runRefreshFlow` up to the reply of the content script: the tab
id as far as it was assigned, and the reply or the exception.  The effects are logged. -/
def refreshAttempt (mode : String) (h : RefreshHost) (fuel : Nat) (w : World) :
    Option (Option Int × Except String (Option Response) × World) :=
  match h.createTab with
  | Except.error e => some (none, Except.error e, w)
  | Except.ok tabId =>
    let w₁ := { w with log := w.log ++ [Effect.tabsCreate PROFILE_URL] }
    match waitForTabReady h fuel with
    | none => none
    | some (Except.error e) => some (tabId, Except.error e, w₁)
    | some (Except.ok ()) =>
      let w₂ := { w₁ with log := w₁.log ++ [Effect.tabsSendMessage tabId "EXECUTE_REFRESH" mode] }
      some (tabId, h.response, w₂)

/-- The `finally` block of `runRefreshFlow`. -/
def closeTab (h : RefreshHost) (tabId : Option Int) (w : World) : World :=
  match tabId with
  | some id =>
    if id ≠ 0 ∧ h.removeFails = false then { w with log := w.log ++ [Effect.tabsRemove id] }
    else w
  | none => w

/-- `runRefreshFlow({ mode })`.  `none` means that `fuel` was too small for the wait. -/
def runRefreshFlow (mode : String) (h : RefreshHost) (fuel : Nat) (w : World) : Option World :=
  match refreshAttempt mode h fuel w with
  | none => none
  | some (tabId, Except.ok response, w₁) =>
    let success := (readReply response Response.success).truthy
    let w₂ := w₁.storageSet ["lastRefreshAt", "lastRefreshStatus", "loginStatus", "profileViews"]
      (fun s => { s with
        lastRefreshAt := some h.now
        lastRefreshStatus := some (if success then "success" else "failed")
        loginStatus :=
          some (if (readReply response Response.isLoggedIn).truthy then "logged_in"
            else "logged_out")
        profileViews := (readReply response Response.profileViews).orElse (JsVal.str "N/A") })
    let w₃ :=
      match w₂.alarmsGet DAILY_ALARM_NAME with
      | some nextAlarm =>
        if nextAlarm.scheduledTime ≠ 0 then
          w₂.storageSet ["nextRefreshAt"]
            (fun s => { s with nextRefreshAt := some nextAlarm.scheduledTime })
        else w₂
      | none => w₂
    some (closeTab h tabId w₃)
  | some (tabId, Except.error _, w₁) =>
    let w₂ := w₁.storageSet ["lastRefreshAt", "lastRefreshStatus"]
      (fun s => { s with lastRefreshAt := some h.now, lastRefreshStatus := some "failed" })
    some (closeTab h tabId w₂)

/-- The `chrome.runtime.onInstalled` listener. -/
def onInstalled (now₁ now₂ : Int) (w : World) : World :=
  scheduleDailyRefresh now₂ (ensureInstallTimestamp now₁ w).2

/-- The `chrome.runtime.onStartup` listener. -/
def onStartup (now₁ now₂ : Int) (w : World) : World :=
  ensureAlarm now₂ (ensureInstallTimestamp now₁ w).2

/-- The `chrome.alarms.onAlarm` listener, for an alarm of name `alarmName`. -/
def onAlarm (alarmName : String) (h : RefreshHost) (fuel : Nat) (w : World) : Option World :=
  if alarmName ≠ DAILY_ALARM_NAME then some w
  else runRefreshFlow "auto" h fuel w

/-- The messages `handleMessage` tells apart, with the payload properties it reads. -/
inductive Message where
  | manualRefresh
  | contentLoginStatus (isLoggedIn : JsVal)
  | contentInsights (profileViews : JsVal)
  | getDashboardState
  | other
  deriving DecidableEq, Repr

/-- The object returned by `getDashboardState()`, without `resumeMeta`, which the
background script passes on as stored. -/
structure Dashboard where
  trial : TrialState
  isPaid : Bool
  lastRefreshAt : Option Int
  lastRefreshStatus : String
  loginStatus : String
  profileViews : JsVal
  nextRefreshAt : Option Int
  deriving DecidableEq, Repr

/-- The values `handleMessage` resolves to. -/
inductive Handled where
  | gated (gated : Bool)
  | empty
  | dashboard (state : Dashboard)
  deriving DecidableEq, Repr

/-- What the host answers during one run of `handleMessage`. -/
structure MessageHost where
  /-- The reading of `Date.now()` available to `ensureInstallTimestamp`. -/
  now₁ : Int
  /-- The reading of `Date.now()` made by `getTrialState`. -/
  now₂ : Int
  /-- The host during `runRefreshFlow`. -/
  refresh : RefreshHost

/-- `getDashboardState()`. -/
def getDashboardState (h : MessageHost) (w : World) : Dashboard × World :=
  let (trial, w₁) := getTrialState h.now₁ h.now₂ w
  let orNull (v : Option Int) : Option Int := if numTruthy v then v else none
  let alarmTime : Option Int := (w.alarmsGet DAILY_ALARM_NAME).map Alarm.scheduledTime
  ({ trial := trial
     isPaid := w.store.isPaid.truthy
     lastRefreshAt := orNull w.store.lastRefreshAt
     lastRefreshStatus :=
      match w.store.lastRefreshStatus with
      | some v => if v ≠ "" then v else "idle"
      | none => "idle"
     loginStatus :=
      match w.store.loginStatus with
      | some v => if v ≠ "" then v else "unknown"
      | none => "unknown"
     profileViews := w.store.profileViews.orElse (JsVal.str "N/A")
     nextRefreshAt :=
      if numTruthy alarmTime then alarmTime else orNull w.store.nextRefreshAt }, w₁)

/-- `handleMessage(message)`.  `none` means that `fuel` was too small for the refresh. -/
def handleMessage (message : Message) (h : MessageHost) (fuel : Nat) (w : World) :
    Option (Handled × World) :=
  match message with
  | Message.manualRefresh =>
    let (access, w₁) := hasManualRefreshAccess h.now₁ h.now₂ w
    if access = false then
      some (Handled.gated true, { w₁ with log := w₁.log ++ [Effect.tabsCreate PAYWALL_URL] })
    else
      match runRefreshFlow "manual" h.refresh fuel w₁ with
      | none => none
      | some w₂ => some (Handled.gated false, w₂)
  | Message.contentLoginStatus isLoggedIn =>
    some (Handled.empty,
      w.storageSet ["loginStatus"] (fun s => { s with
        loginStatus := some (if isLoggedIn.truthy then "logged_in" else "logged_out") }))
  | Message.contentInsights profileViews =>
    some (Handled.empty,
      w.storageSet ["profileViews"] (fun s => { s with
        profileViews := profileViews.orElse (JsVal.str "N/A") }))
  | Message.getDashboardState =>
    let (state, w₁) := getDashboardState h w
    some (Handled.dashboard state, w₁)
  | Message.other => some (Handled.empty, w)

/-! ## JavaScript string operations used by the content script -/

/-- `toLowerCase` on one code unit.  Besides the letters `A`-`Z`, the Kelvin sign and the
dotted capital I are the characters whose lower-case form contains an ASCII letter; every
other code unit is kept (the lower-case form of a surrogate pair is a surrogate pair), so
that tests for ASCII needles are those of JavaScript. -/
def lowerUnit (u : Nat) : List Nat :=
  if 0x41 ≤ u ∧ u ≤ 0x5A then [u + 0x20]
  else if u = 0x212A then [0x6B]
  else if u = 0x130 then [0x69, 0x307]
  else [u]

/-- `s.toLowerCase()`. -/
def toLowerCase (s : JsString) : JsString :=
  ⟨s.units.flatMap lowerUnit⟩

/-- `s.includes(needle)`: `needle` starts at some position of `s`. -/
def includes (s needle : JsString) : Bool :=
  s.units.tails.any (fun rest => needle.units.isPrefixOf rest)

/-- The white space and line terminator code units that `trim` strips. -/
def WHITESPACE : List Nat :=
  [0x9, 0xA, 0xB, 0xC, 0xD, 0x20, 0xA0, 0x1680, 0x2000, 0x2001, 0x2002, 0x2003, 0x2004,
   0x2005, 0x2006, 0x2007, 0x2008, 0x2009, 0x200A, 0x2028, 0x2029, 0x202F, 0x205F, 0x3000,
   0xFEFF]

def isWhiteSpace (u : Nat) : Bool := WHITESPACE.contains u

/-- `s.trim()`. -/
def trim (s : JsString) : JsString :=
  ⟨((s.units.dropWhile isWhiteSpace).reverse.dropWhile isWhiteSpace).reverse⟩

/-- `s.slice(0, n)`: the first `n` code units. -/
def slice0 (s : JsString) (n : Nat) : JsString :=
  ⟨s.units.take n⟩

/-- `parts.join(" ")`. -/
def joinSpace : List JsString → JsString
  | [] => ""
  | [s] => s
  | s :: t :: rest => ⟨s.units ++ 0x20 :: (joinSpace (t :: rest)).units⟩

/-- The character class `\d`: the digits `0`-`9`. -/
def isDigit (u : Nat) : Bool := decide (0x30 ≤ u ∧ u ≤ 0x39)

/-- The character class `[\d,]`. -/
def isDigitOrComma (u : Nat) : Bool := isDigit u || u == 0x2C

/-- A match of `\d+[\d,]*` that starts at the head of `us`: one or more digits, as many as
there are, then as many digits and commas as there are. -/
def matchDigitsAt (us : List Nat) : Option (List Nat) :=
  let digits := us.takeWhile isDigit
  if digits = [] then none
  else some (digits ++ (us.dropWhile isDigit).takeWhile isDigitOrComma)

/-- The first capture group of `s.match(/(\d+[\d,]*)/)`: the match at the leftmost position
that has one. -/
def matchDigitsFrom : List Nat → Option (List Nat)
  | [] => none
  | u :: us =>
    match matchDigitsAt (u :: us) with
    | some m => some m
    | none => matchDigitsFrom us

/-- The result `match[1]` of `s.match(/(\d+[\d,]*)/)`, `none` when there is no match. -/
def matchDigits (s : JsString) : Option JsString :=
  (matchDigitsFrom s.units).map JsString.mk

/-! ## The page seen by the content script -/

/-- An element of the page: its tag in lower case, its attributes (the property `className`
is the attribute `class`), its class list, the two text properties the script reads
(`innerText` is missing on non-HTML elements), and the `innerText` of
`closest("section,div,form")` when there is such an ancestor. -/
structure Element where
  tag : String
  attrs : List (String × JsString) := []
  classList : List JsString := []
  innerText : Option JsString := none
  textContent : JsString := ""
  closestInnerText : Option JsString := none
  deriving DecidableEq, Repr

/-- The page at one moment: `document.body?.innerText` and all elements in document order. -/
structure Document where
  bodyInnerText : Option JsString := none
  elements : List Element := []
  deriving DecidableEq, Repr

/-- `el.getAttribute(name)`. -/
def Element.attr (e : Element) (name : String) : Option JsString :=
  (e.attrs.find? (fun p => p.1 = name)).map Prod.snd

/-- A property that reflects the attribute `name`, such as `input.id`: the value of the
attribute, or the empty string. -/
def Element.reflected (e : Element) (name : String) : JsString :=
  match e.attr name with
  | some v => v
  | none => ""

/-- An attribute value with the letters `A`-`Z` in lower case, for the attributes that
selectors compare without regard to ASCII case. -/
def asciiLowerCase (s : JsString) : JsString :=
  ⟨s.units.map (fun u => if 0x41 ≤ u ∧ u ≤ 0x5A then u + 0x20 else u)⟩

/-- The compound selectors the script uses. -/
inductive Compound where
  /-- The selector `tag`. -/
  | tag (name : String)
  /-- The selector `tag[attr='value']`. -/
  | attrEquals (name attr : String) (value : JsString)
  /-- The selector `tag[attr*="value"]`. -/
  | attrContains (name attr : String) (value : JsString)
  /-- The selector `.name`. -/
  | hasClass (name : JsString)
  /-- The selector `tag[attr="value"]` for an attribute such as `type`, whose value HTML
  compares without regard to ASCII case; `value` is in lower case. -/
  | attrEqualsAnyCase (name attr : String) (value : JsString)
  deriving DecidableEq, Repr

def Compound.matches (c : Compound) (e : Element) : Bool :=
  match c with
  | Compound.tag name => e.tag = name
  | Compound.attrEquals name attr value => e.tag = name && e.attr attr = some value
  | Compound.attrContains name attr value =>
    e.tag = name &&
      (match e.attr attr with
       | some v => includes v value
       | none => false)
  | Compound.hasClass name => e.classList.contains name
  | Compound.attrEqualsAnyCase name attr value =>
    e.tag = name && (e.attr attr).map asciiLowerCase = some value

/-- `document.querySelectorAll(selector)` for a comma-separated list of compound selectors:
the matching elements in document order. -/
def querySelectorAll (doc : Document) (selector : List Compound) : List Element :=
  doc.elements.filter (fun e => selector.any (fun c => c.matches e))

/-- `document.querySelector(selector)`. -/
def querySelector (doc : Document) (selector : List Compound) : Option Element :=
  (querySelectorAll doc selector).head?

/-- The expression `el.innerText || el.textContent || ""`. -/
def Element.text (e : Element) : JsString :=
  match e.innerText with
  | some t => if t ≠ "" then t else e.textContent
  | none => e.textContent

/-! ## content.js -/

/-- The selector `a[href*="/login"], button[id*="login"], .login`. -/
def SIGN_IN_SELECTOR : List Compound :=
  [Compound.attrContains "a" "href" "/login", Compound.attrContains "button" "id" "login",
   Compound.hasClass "login"]

/-- The expression `document.body?.innerText?.toLowerCase() || ""`. -/
def pageText (doc : Document) : JsString :=
  match doc.bodyInnerText with
  | some t => toLowerCase t
  | none => ""

/-- `detectLoggedIn()`. -/
def detectLoggedIn (doc : Document) : Bool :=
  let pageText := pageText doc
  let hasLoginPrompt :=
    ["login", "sign in", "forgot password"].any (fun needle => includes pageText needle)
  let hasProfileSignals :=
    ["profile", "resume", "update profile", "naukri"].any (fun needle => includes pageText needle)
  let signInButton := querySelector doc SIGN_IN_SELECTOR
  if signInButton.isSome && !hasProfileSignals then false
  else !hasLoginPrompt || hasProfileSignals

/-- The two-case rule of claim C9, in its words: `P` or (not `L` and not `B`), where `P` is
"the lower-cased page text contains profile, resume or naukri", `L` is "it contains login,
sign in or forgot password" and `B` is "an element matching the sign-in selector exists". -/
def detectLoggedInRule (doc : Document) : Bool :=
  let P := includes (pageText doc) "profile" || includes (pageText doc) "resume"
    || includes (pageText doc) "naukri"
  let L := includes (pageText doc) "login" || includes (pageText doc) "sign in"
    || includes (pageText doc) "forgot password"
  let B := doc.elements.any (fun e => SIGN_IN_SELECTOR.any (fun c => c.matches e))
  P || (!L && !B)

/-- The selector `div, span, p, strong`. -/
def VIEWS_SELECTOR : List Compound :=
  [Compound.tag "div", Compound.tag "span", Compound.tag "p", Compound.tag "strong"]

/-- `scrapeProfileViews()`. -/
def scrapeProfileViews (doc : Document) : JsString :=
  let candidates := querySelectorAll doc VIEWS_SELECTOR
  let target := candidates.find? (fun node =>
    let text := toLowerCase node.textContent
    includes text "profile views" || includes text "views")
  match target with
  | none => "N/A"
  | some target =>
    match matchDigits target.textContent with
    | some m => m
    | none => slice0 (trim target.textContent) 40

/-- The selectors `findRefreshButton` tries, in this order. -/
def REFRESH_SELECTORS : List (List Compound) :=
  [[Compound.tag "button"], [Compound.tag "a"], [Compound.attrEquals "div" "role" "button"],
   [Compound.tag "span"]]

/-- The callback of `find` in `findRefreshButton`: the text is not empty and contains one
of the needles. -/
def looksLikeRefresh (el : Element) : Bool :=
  let needles := ["refresh", "update profile", "update", "save"]
  let text := trim (toLowerCase el.text)
  decide (text ≠ "") && needles.any (fun needle => includes text needle)

/-- `findRefreshButton()`. -/
def findRefreshButton (doc : Document) : Option Element :=
  REFRESH_SELECTORS.findSome? (fun selector =>
    (querySelectorAll doc selector).find? looksLikeRefresh)

/-- The text test of claim C8, in its words: the lower-cased trimmed text contains
"refresh", "update" or "save". -/
def hasRefreshText (el : Element) : Bool :=
  includes (trim (toLowerCase el.text)) "refresh"
    || includes (trim (toLowerCase el.text)) "update"
    || includes (trim (toLowerCase el.text)) "save"

/-- The effects of the content script on the page and on the extension. -/
inductive PageEffect where
  | dispatchClick (node : Element)
  | click (node : Element)
  | sendLoginStatus (isLoggedIn : Bool)
  | sendInsights (profileViews : JsString)
  /-- The assignment `input.files = dt.files`. -/
  | setFiles (input : Element)
  /-- The `input` event dispatched on the file input. -/
  | dispatchInput (input : Element)
  /-- The `change` event dispatched on the file input. -/
  | dispatchChange (input : Element)
  deriving DecidableEq, Repr

/-- `safeClick(node)`: a failure of `scrollIntoView` is ignored; `dispatch` is the outcome
of `node.dispatchEvent(...)` and `click` the outcome of `node.click()`. -/
def safeClick (dispatch click : Except String Unit) (node : Element) :
    Except String (List PageEffect) :=
  match dispatch with
  | Except.ok () => Except.ok [PageEffect.dispatchClick node]
  | Except.error _ =>
    match click with
    | Except.ok () => Except.ok [PageEffect.click node]
    | Except.error e => Except.error e

/-- The selector `input[type="file"]`. -/
def FILE_INPUT_SELECTOR : List Compound :=
  [Compound.attrEqualsAnyCase "input" "type" "file"]

/-- The expression `value || ""` for a string that may be `null` or `undefined`. -/
def orEmpty (value : Option JsString) : JsString :=
  match value with
  | some v => if v ≠ "" then v else ""
  | none => ""

/-- The callback of `find` in `findBestResumeInput`: the properties `accept`, `id`, `name`
and `className` of the input, its `aria-label` and the first 300 code units of the text
around it, joined and in lower case, contain one of the resume needles. -/
def hasResumeSignal (input : Element) : Bool :=
  let context := toLowerCase (joinSpace
    [input.reflected "accept", input.reflected "id", input.reflected "name",
     input.reflected "class", orEmpty (input.attr "aria-label"),
     orEmpty (input.closestInnerText.map (fun t => slice0 t 300))])
  ["resume", "cv", ".pdf", ".doc", "upload"].any (fun needle => includes context needle)

/-- `findBestResumeInput()`. -/
def findBestResumeInput (doc : Document) : Option Element :=
  let allInputs := querySelectorAll doc FILE_INPUT_SELECTOR
  match allInputs.find? hasResumeSignal with
  | some resumeInput => some resumeInput
  | none => allInputs.head?

/-- The selectors `findResumeTriggers` goes through, in this order. -/
def TRIGGER_SELECTORS : List (List Compound) :=
  [[Compound.tag "button"], [Compound.tag "a"], [Compound.tag "span"], [Compound.tag "label"],
   [Compound.attrEquals "div" "role" "button"]]

/-- The callback of `filter` in `findResumeTriggers`. -/
def looksLikeResumeTrigger (node : Element) : Bool :=
  let text := trim (toLowerCase node.text)
  decide (text ≠ "") &&
    (includes text "update resume" || decide (text = "update")
      || includes text "upload resume" || includes text "resume")

/-- `findResumeTriggers()`.  The selectors match elements of different tags, so that no
node is found twice and the `Set` removes nothing. -/
def findResumeTriggers (doc : Document) : List Element :=
  TRIGGER_SELECTORS.flatMap (fun selector =>
    (querySelectorAll doc selector).filter looksLikeResumeTrigger)

/-- The object returned by `tryResumeUpload()`. -/
structure UploadResult where
  success : Bool
  reason : String
  deriving DecidableEq, Repr

/-- The stored file handle: the outcome of each of its methods.  `queryPermission` is
`none` when the handle has no such method. -/
structure FileHandle where
  queryPermission : Option (Except String String)
  requestPermission : Except String String
  getFile : Except String Unit

/-- What the host answers during `tryResumeUpload()`. -/
structure UploadHost where
  /-- `chrome.storage.local.get("resumeFileHandle")`. -/
  resumeFileHandle : Except String (Option FileHandle)
  /-- The page when `getResumeFileInput` starts. -/
  page : Document
  /-- The outcome of `dispatchEvent` in the click on the trigger number `i`. -/
  triggerDispatch : Nat → Except String Unit
  /-- The outcome of `click()` on the trigger number `i`. -/
  triggerClick : Nat → Except String Unit
  /-- The page 350 ms after the click on the trigger number `i`. -/
  afterTrigger : Nat → Document
  /-- The pages seen by the iterations that the polling loop of `getResumeFileInput` makes
  before its limit of 12 s is over. -/
  polls : List Document
  /-- The outcome of `new DataTransfer()` and `dt.items.add(file)`. -/
  dataTransfer : Except String Unit
  /-- The outcome of the assignment `input.files = dt.files`. -/
  setFiles : Except String Unit
  /-- The outcome of dispatching the `input` event. -/
  inputEvent : Except String Unit
  /-- The outcome of dispatching the `change` event. -/
  changeEvent : Except String Unit

/-- `ensureFilePermission(handle)`. -/
def ensureFilePermission (handle : FileHandle) : Except String Bool :=
  match handle.queryPermission with
  | none => Except.ok true
  | some (Except.error e) => Except.error e
  | some (Except.ok readPermission) =>
    if readPermission = "granted" then Except.ok true
    else
      match handle.requestPermission with
      | Except.error e => Except.error e
      | Except.ok requested => Except.ok (decide (requested = "granted"))

/-- The loop of `getResumeFileInput` over the triggers: each is clicked, and the input that
is there 350 ms later is returned; `i` counts the triggers clicked so far.  The result is
the input, `none` when no click brought one, or the exception of a click, and the clicks. -/
def clickTriggers (h : UploadHost) :
    List Element → Nat → Except String (Option Element) × List PageEffect
  | [], _ => (Except.ok none, [])
  | trigger :: rest, i =>
    match safeClick (h.triggerDispatch i) (h.triggerClick i) trigger with
    | Except.error e => (Except.error e, [])
    | Except.ok clicked =>
      match findBestResumeInput (h.afterTrigger i) with
      | some input => (Except.ok (some input), clicked)
      | none => ((clickTriggers h rest (i + 1)).1, clicked ++ (clickTriggers h rest (i + 1)).2)

/-- `getResumeFileInput()`: the input found, or `null`, or the exception of a click, and
the clicks made on the way. -/
def getResumeFileInput (h : UploadHost) : Except String (Option Element) × List PageEffect :=
  match findBestResumeInput h.page with
  | some existingInput => (Except.ok (some existingInput), [])
  | none =>
    match clickTriggers h (findResumeTriggers h.page) 0 with
    | (Except.error e, clicked) => (Except.error e, clicked)
    | (Except.ok (some input), clicked) => (Except.ok (some input), clicked)
    | (Except.ok none, clicked) => (Except.ok (h.polls.findSome? findBestResumeInput), clicked)

/-- One run of `tryResumeUpload()`: the object it resolves to or the exception it throws,
and its effects on the page, in order. -/
def tryResumeUploadRun (h : UploadHost) : Except String UploadResult × List PageEffect :=
  match h.resumeFileHandle with
  | Except.error e => (Except.error e, [])
  | Except.ok none =>
    (Except.ok { success := false, reason := "Resume handle not configured." }, [])
  | Except.ok (some handle) =>
    match ensureFilePermission handle with
    | Except.error e => (Except.error e, [])
    | Except.ok false =>
      (Except.ok { success := false,
                   reason := "File permission not granted for selected resume." }, [])
    | Except.ok true =>
      match handle.getFile with
      | Except.error _ =>
        (Except.ok { success := false,
                     reason := "Resume file is missing or permission revoked." }, [])
      | Except.ok () =>
        match getResumeFileInput h with
        | (Except.error e, searched) => (Except.error e, searched)
        | (Except.ok none, searched) =>
          (Except.ok { success := false,
                       reason := "Resume file input not found on profile page." }, searched)
        | (Except.ok (some input), searched) =>
          match h.dataTransfer with
          | Except.error e => (Except.error e, searched)
          | Except.ok () =>
            let failed : UploadResult :=
              { success := false, reason := "Failed to attach resume to upload input." }
            match h.setFiles with
            | Except.error _ => (Except.ok failed, searched)
            | Except.ok () =>
              match h.inputEvent with
              | Except.error _ => (Except.ok failed, searched ++ [PageEffect.setFiles input])
              | Except.ok () =>
                match h.changeEvent with
                | Except.error _ =>
                  (Except.ok failed,
                    searched ++ [PageEffect.setFiles input, PageEffect.dispatchInput input])
                | Except.ok () =>
                  (Except.ok { success := true,
                               reason := "Resume attached and change event dispatched." },
                    searched ++ [PageEffect.setFiles input, PageEffect.dispatchInput input,
                      PageEffect.dispatchChange input])

/-- `tryResumeUpload()`: the object it resolves to, or the exception it throws. -/
def tryResumeUpload (h : UploadHost) : Except String UploadResult :=
  (tryResumeUploadRun h).1

/-- The effects of `tryResumeUpload()` on the page: the clicks on resume triggers and what
is done to the file input. -/
def tryResumeUploadEffects (h : UploadHost) : List PageEffect :=
  (tryResumeUploadRun h).2

/-- The reply the content script sends to an `EXECUTE_REFRESH` message. -/
structure Reply where
  success : Bool
  isLoggedIn : Bool
  profileViews : JsString
  error : Option String := none
  mode : Option String := none
  resume : Option UploadResult := none
  deriving DecidableEq, Repr

/-- What the host answers during `performRefresh`: the page when the login state is
detected, when the refresh control is looked for and when the counter is scraped, and
the outcome of every call that may throw. -/
structure ContentHost where
  atDetect : Document
  atFind : Document
  atScrape : Document
  dispatch : Except String Unit
  click : Except String Unit
  upload : UploadHost
  /-- `chrome.runtime.sendMessage` of the `CONTENT_LOGIN_STATUS` message. -/
  sendLoginStatus : Except String Unit
  /-- `chrome.runtime.sendMessage` of the `CONTENT_INSIGHTS` message. -/
  sendInsights : Except String Unit

/-- `performRefresh(mode)`: the returned reply or the thrown error, and the effects. -/
def performRefresh (mode : String) (h : ContentHost) : Except String Reply × List PageEffect :=
  let isLoggedIn := detectLoggedIn h.atDetect
  if isLoggedIn = false then
    match h.sendLoginStatus with
    | Except.error e => (Except.error e, [PageEffect.sendLoginStatus false])
    | Except.ok () =>
      (Except.ok { success := false, isLoggedIn := false, profileViews := "N/A" },
        [PageEffect.sendLoginStatus false])
  else
    match findRefreshButton h.atFind with
    | none => (Except.error "Could not find refresh/update button on profile page.", [])
    | some refreshButton =>
      match safeClick h.dispatch h.click refreshButton with
      | Except.error e => (Except.error e, [])
      | Except.ok clicked =>
        match tryResumeUpload h.upload with
        | Except.error e => (Except.error e, clicked ++ tryResumeUploadEffects h.upload)
        | Except.ok uploadResult =>
          let profileViews := scrapeProfileViews h.atScrape
          let effects := clicked ++ tryResumeUploadEffects h.upload ++
            [PageEffect.sendLoginStatus true, PageEffect.sendInsights profileViews]
          match h.sendLoginStatus, h.sendInsights with
          | Except.ok (), Except.ok () =>
            (Except.ok { success := true, isLoggedIn := true, profileViews := profileViews,
                         mode := some mode, resume := some uploadResult }, effects)
          | Except.error e, _ => (Except.error e, effects)
          | Except.ok (), Except.error e => (Except.error e, effects)

/-- The `chrome.runtime.onMessage` listener of the content script: the reply passed to
`sendResponse` (`none` for a message of another type), and the effects. -/
def onMessage (type mode : String) (h : ContentHost) : Option Reply × List PageEffect :=
  if type ≠ "EXECUTE_REFRESH" then (none, [])
  else
    match performRefresh mode h with
    | (Except.ok reply, effects) => (some reply, effects)
    | (Except.error e, effects) =>
      (some { success := false, error := some e, isLoggedIn := false, profileViews := "N/A" },
        effects)

/-- The reply as it reaches `runRefreshFlow` through `chrome.tabs.sendMessage`. -/
def Reply.toResponse (r : Reply) : Response :=
  { success := JsVal.bool r.success
    isLoggedIn := JsVal.bool r.isLoggedIn
    profileViews := JsVal.str r.profileViews }

/-! ## popup.js -/

/-- The JavaScript remainder `a % b` on integers: the quotient is truncated, so the sign is
that of `a`. -/
def jsRem (a b : Int) : Int := Int.tmod a b

/-- `Math.floor(a / b)` for integers `a` and `b`, `b` positive. -/
def mathFloorDiv (a b : Int) : Int := a / b

/-- The part `${n}` of a template literal for an integer `n`: its decimal digits. -/
def numberToString (n : Int) : String := toString n

/-- `formatCountdown(timestamp)`, with `now` the reading of `Date.now()`.  The timestamp is
the `nextRefreshAt` of the dashboard state: a number, or `null` (`none`). -/
def formatCountdown (timestamp : Option Int) (now : Int) : String :=
  match timestamp with
  | none => "Not scheduled"
  | some ts =>
    if ts = 0 then "Not scheduled"
    else
      let diff := ts - now
      if diff ≤ 0 then "Due now"
      else
        let hours := mathFloorDiv diff 3600000
        let mins := mathFloorDiv (jsRem diff 3600000) 60000
        numberToString hours ++ "h " ++ numberToString mins ++ "m"

/-! ## Sample hosts and pages -/

/-- A host on which the profile tab opens, is loaded at once, and the content script
reports a successful refresh. -/
def sampleRefreshHost : RefreshHost :=
  { createTab := Except.ok (some 7)
    clock := fun i => 300 * i
    tabStatus := fun _ => Except.ok "complete"
    response := Except.ok (some { success := JsVal.bool true
                                  isLoggedIn := JsVal.bool true
                                  profileViews := JsVal.str "12" })
    now := 5000
    removeFails := false }

/-- A host that reads the clock long after the trial of `sampleExpired` has ended. -/
def sampleMessageHost : MessageHost :=
  { now₁ := 300000000
    now₂ := 300000000
    refresh := sampleRefreshHost }

/-- A world whose trial started at time 1000 and that holds no paid flag. -/
def sampleExpired : World :=
  { store := { installTimestamp := some 1000 } }

/-- A world whose daily alarm reports the scheduled time 0. -/
def sampleZeroAlarm : World :=
  { alarms := [{ name := "dailyProfileRefresh", scheduledTime := 0, periodInMinutes := some 1440 }] }

/-- A button labelled "Save". -/
def sampleButton : Element :=
  { tag := "button", innerText := some " Save ", textContent := " Save " }

/-- A profile page that still shows a login link: an "Update" anchor to `/login`, a views
counter, and a "Save" button after them. -/
def samplePage : Document :=
  { bodyInnerText := some "Naukri  Login  Update profile"
    elements :=
      [{ tag := "a", attrs := [("href", "/login")], textContent := "Update" },
       { tag := "span", textContent := "Profile views: 1,234 this week" },
       sampleButton] }

/-- No resume has been configured. -/
def sampleUploadHost : UploadHost :=
  { resumeFileHandle := Except.ok none
    page := samplePage
    triggerDispatch := fun _ => Except.ok ()
    triggerClick := fun _ => Except.ok ()
    afterTrigger := fun _ => samplePage
    polls := []
    dataTransfer := Except.ok ()
    setFiles := Except.ok ()
    inputEvent := Except.ok ()
    changeEvent := Except.ok () }

/-- The content script on `samplePage`, every host call going through. -/
def sampleContentHost : ContentHost :=
  { atDetect := samplePage
    atFind := samplePage
    atScrape := samplePage
    dispatch := Except.ok ()
    click := Except.ok ()
    upload := sampleUploadHost
    sendLoginStatus := Except.ok ()
    sendInsights := Except.ok () }

/-- The content script on `samplePage` when the `CONTENT_INSIGHTS` message is rejected. -/
def sampleClosedPortHost : ContentHost :=
  { sampleContentHost with sendInsights := Except.error "port closed" }

/-- A resume has been configured and can be read, and the page never shows a file input. -/
def sampleSearchHost : UploadHost :=
  { sampleUploadHost with
    resumeFileHandle := Except.ok (some
      { queryPermission := none
        requestPermission := Except.ok "granted"
        getFile := Except.ok () }) }

/-- A page with a single paragraph of the given text. -/
def sampleParagraph (text : JsString) : Document :=
  { elements := [{ tag := "p", textContent := text }] }

/-- The text of `n` grinning faces (U+1F600), each of them two UTF-16 code units. -/
def sampleFaces (n : Nat) : String :=
  String.mk (List.replicate n (Char.ofNat 0x1F600))

/-- A file input for resumes, with its `type` attribute in capitals. -/
def sampleFileInput : Element :=
  { tag := "input", attrs := [("type", "FILE"), ("accept", ".pdf")] }

/-- A resume has been configured and can be read, and the page shows `sampleFileInput`. -/
def sampleAttachHost : UploadHost :=
  { sampleSearchHost with page := { elements := [sampleFileInput] } }

/-- The sample refresh host, answering with the reply of the content script on the sample
page. -/
def sampleLinkedHost : RefreshHost :=
  { sampleRefreshHost with
    response := Except.ok ((onMessage "EXECUTE_REFRESH" "auto" sampleContentHost).1.map
      Reply.toResponse) }

/-! ## Auxiliary facts -/

theorem mathCeilDiv_day (a : Int) : mathCeilDiv a 86400000 = ⌈(a : ℚ) / 86400000⌉ := by
  have h := Rat.floor_intCast_div_natCast (-a) 86400000
  have h2 : ((-a : ℤ) : ℚ) / ((86400000 : ℕ) : ℚ) = -((a : ℚ) / 86400000) := by
    push_cast
    ring
  rw [h2, Int.floor_neg] at h
  unfold mathCeilDiv
  have h3 : ((86400000 : ℕ) : ℤ) = 86400000 := by norm_num
  rw [h3] at h
  omega

theorem ensureInstallTimestamp_stored (now : Int) (w : World) :
    (ensureInstallTimestamp now w).2.store.installTimestamp
      = some (ensureInstallTimestamp now w).1 := by
  unfold ensureInstallTimestamp
  cases hts : w.store.installTimestamp with
  | none => simp [numTruthy, World.storageSet]
  | some t =>
    by_cases h0 : t = 0
    · simp [numTruthy, World.storageSet, h0]
    · simp [numTruthy, h0, hts]

/-! ## The claims -/

/-- C2. With `t` the install timestamp (the value `ensureInstallTimestamp` yields) and `n`
the current time, `getTrialState` returns `expiresAt = t + 259200000`,
`remainingMs = max 0 (expiresAt - n)`, `remainingDays = ⌈remainingMs / 86400000⌉` and
`isActive = (n < expiresAt)`; `isActive` holds exactly when `remainingDays ≥ 1`; and when
`n ≥ t` the value `remainingDays` is one of 0, 1, 2, 3. -/
theorem getTrialState_three_day_window (now₁ n : Int) (w : World) (t : Int)
    (ht : (ensureInstallTimestamp now₁ w).1 = t) :
    (getTrialState now₁ n w).1 =
        { installTimestamp := t
          expiresAt := t + 259200000
          remainingMs := max 0 (t + 259200000 - n)
          remainingDays := ⌈((max 0 (t + 259200000 - n) : Int) : ℚ) / 86400000⌉
          isActive := decide (n < t + 259200000) } ∧
      ((getTrialState now₁ n w).1.isActive = true ↔ 1 ≤ (getTrialState now₁ n w).1.remainingDays) ∧
      (t ≤ n → (getTrialState now₁ n w).1.remainingDays ∈ ({0, 1, 2, 3} : Set Int)) := by
  have hD : DAY_MS = 86400000 := by decide
  have hT : TRIAL_DAYS = 3 := by decide
  have hst : (getTrialState now₁ n w).1 =
      { installTimestamp := t
        expiresAt := t + 259200000
        remainingMs := max 0 (t + 259200000 - n)
        remainingDays := mathCeilDiv (max 0 (t + 259200000 - n)) 86400000
        isActive := decide (max 0 (t + 259200000 - n) > 0) } := by
    simp only [getTrialState, ht, hD, hT]
    norm_num
  refine ⟨?_, ?_, ?_⟩
  · rw [hst, mathCeilDiv_day]
    congr 1
    simp only [gt_iff_lt, lt_max_iff, lt_self_iff_false, false_or, sub_pos]
  · rw [hst]
    simp only [gt_iff_lt, decide_eq_true_eq, mathCeilDiv]
    omega
  · intro hle
    rw [hst]
    simp only [mathCeilDiv, Set.mem_insert_iff, Set.mem_singleton_iff]
    omega

/-- A stored install timestamp 1000, read at time 2000: the trial ends at 259201000. -/
theorem getTrialState_three_day_window_witness :
    (ensureInstallTimestamp 0 { store := { installTimestamp := some 1000 } }).1 = 1000 ∧
      (getTrialState 0 2000 { store := { installTimestamp := some 1000 } }).1.expiresAt
        = 259201000 :=
  ⟨by decide,
    by rw [(getTrialState_three_day_window 0 2000
      { store := { installTimestamp := some 1000 } } 1000 (by decide)).1]; norm_num⟩

/-- C7, as stated, fails when the clock reads 0 on a store without install timestamp: the
first call stores and returns 0, which the second call, at time 9, reads as absent; it
returns 9, and the `expiresAt` of `getTrialState` moves with it. -/
theorem ensureInstallTimestamp_clock_zero :
    (ensureInstallTimestamp 0 {}).1 = 0 ∧
      (ensureInstallTimestamp 9 (ensureInstallTimestamp 0 {}).2).1 = 9 ∧
      (getTrialState 9 9 (getTrialState 0 0 {}).2).1.expiresAt
        ≠ (getTrialState 0 0 {}).1.expiresAt := by
  decide

/-- C7, amended.  A stored non-zero `installTimestamp` is returned and storage is left as it
is; a store without one (the key is missing, or holds the falsy 0) gets the current time,
which is returned; hence, the first call having returned a non-zero timestamp, a second call
returns the same value and changes nothing, whether it is made directly, at startup after
install, or through `getTrialState`, whose `expiresAt` stays the same. -/
theorem ensureInstallTimestamp_fixed_at_first_use (w : World) (now₁ now₂ now₃ n₁ n₂ : Int) :
    (∀ t, w.store.installTimestamp = some t → t ≠ 0 →
        ensureInstallTimestamp now₁ w = (t, w)) ∧
      (w.store.installTimestamp = none ∨ w.store.installTimestamp = some 0 →
        ensureInstallTimestamp now₁ w =
          (now₁, w.storageSet ["installTimestamp"]
            (fun s => { s with installTimestamp := some now₁ }))) ∧
      ((ensureInstallTimestamp now₁ w).1 ≠ 0 →
        ensureInstallTimestamp now₂ (ensureInstallTimestamp now₁ w).2
            = ensureInstallTimestamp now₁ w ∧
          (onStartup now₂ now₃ (onInstalled now₁ now₃ w)).store.installTimestamp
            = some (ensureInstallTimestamp now₁ w).1 ∧
          (getTrialState now₂ n₂ (getTrialState now₁ n₁ w).2).2 = (getTrialState now₁ n₁ w).2 ∧
          (getTrialState now₂ n₂ (getTrialState now₁ n₁ w).2).1.expiresAt
            = (getTrialState now₁ n₁ w).1.expiresAt) := by
  refine ⟨?_, ?_, ?_⟩
  · intro t ht h0
    simp [ensureInstallTimestamp, numTruthy, ht, h0]
  · intro h
    rcases h with h | h <;> simp [ensureInstallTimestamp, numTruthy, h]
  · intro h0
    have hst := ensureInstallTimestamp_stored now₁ w
    have hfix : ∀ now, ensureInstallTimestamp now (ensureInstallTimestamp now₁ w).2
        = ensureInstallTimestamp now₁ w := by
      intro now
      rw [ensureInstallTimestamp.eq_def now, hst]
      simp [numTruthy, h0]
    refine ⟨hfix now₂, ?_, ?_, ?_⟩
    · have hsched : ∀ now v, (scheduleDailyRefresh now v).store.installTimestamp
          = v.store.installTimestamp := by
        intro now v
        simp [scheduleDailyRefresh, World.storageSet, World.alarmsCreate]
      have halarm : ∀ now v, (ensureAlarm now v).store.installTimestamp
          = v.store.installTimestamp := by
        intro now v
        unfold ensureAlarm
        split
        · simp [World.storageSet]
        · exact hsched now v
      have hens : ∀ now (v : World) t, v.store.installTimestamp = some t → t ≠ 0 →
          (ensureInstallTimestamp now v).2 = v := by
        intro now v t hv ht
        simp [ensureInstallTimestamp, numTruthy, hv, ht]
      unfold onStartup onInstalled
      rw [halarm, hens now₂ _ _ (by rw [hsched]; exact hst) h0, hsched, hst]
    · simp only [getTrialState, hfix]
    · simp only [getTrialState, hfix]

/-- A fresh store stamped at time 5: the second call, at time 9, still answers 5. -/
theorem ensureInstallTimestamp_fixed_at_first_use_witness :
    (ensureInstallTimestamp 5 {}).1 ≠ 0 ∧
      ensureInstallTimestamp 9 (ensureInstallTimestamp 5 {}).2 = ensureInstallTimestamp 5 {} :=
  ⟨by decide,
    ((ensureInstallTimestamp_fixed_at_first_use {} 5 9 0 0 0).2.2 (by decide)).1⟩

theorem waitLoop_returns (h : RefreshHost) (start timeoutMs : Int) :
    ∀ (k i : Nat), ¬ (h.clock (i + k + 1) - start < timeoutMs) →
      ∃ r, waitLoop h start timeoutMs (k + 1) i = some r := by
  intro k
  induction k with
  | zero =>
    intro i hk
    refine ⟨Except.error "Timed out while waiting for profile tab to load.", ?_⟩
    simp only [waitLoop]
    rw [if_neg (by simpa using hk)]
  | succ k ih =>
    intro i hk
    rw [waitLoop]
    split
    · split
      · exact ⟨_, rfl⟩
      · split
        · exact ⟨_, rfl⟩
        · apply ih (i + 1)
          have : i + 1 + k + 1 = i + (k + 1) + 1 := by omega
          rw [this]
          exact hk
    · exact ⟨_, rfl⟩

theorem closeTab_store (h : RefreshHost) (tabId : Option Int) (w : World) :
    (closeTab h tabId w).store = w.store := by
  unfold closeTab
  split
  · split <;> rfl
  · rfl

theorem runRefreshFlow_returns (mode : String) (h : RefreshHost) (w : World) (k : Nat)
    (hk : ¬ (h.clock (k + 1) - h.clock 0 < 20000)) :
    ∃ w', runRefreshFlow mode h (k + 1) w = some w' := by
  obtain ⟨r, hr⟩ := waitLoop_returns h (h.clock 0) 20000 k 0 (by simpa using hk)
  have hw : waitForTabReady h (k + 1) = some r := hr
  unfold runRefreshFlow refreshAttempt
  rw [hw]
  cases hc : h.createTab with
  | error e => exact ⟨_, rfl⟩
  | ok tabId =>
    cases r with
    | error e => exact ⟨_, rfl⟩
    | ok u =>
      cases hres : h.response with
      | error e => exact ⟨_, rfl⟩
      | ok resp => exact ⟨_, rfl⟩

theorem runRefreshFlow_outcome (mode : String) (h : RefreshHost) (fuel : Nat) (w w' : World)
    (hrun : runRefreshFlow mode h fuel w = some w') :
    (∃ tabId resp, h.createTab = Except.ok tabId ∧
        waitForTabReady h fuel = some (Except.ok ()) ∧ h.response = Except.ok resp ∧
        w'.store.lastRefreshAt = some h.now ∧
        w'.store.lastRefreshStatus
          = some (if (readReply resp Response.success).truthy then "success" else "failed") ∧
        w'.store.loginStatus
          = some (if (readReply resp Response.isLoggedIn).truthy then "logged_in"
              else "logged_out") ∧
        Effect.storageSet ["lastRefreshAt", "lastRefreshStatus", "loginStatus", "profileViews"]
          ∈ w'.log) ∨
      (((∃ e, h.createTab = Except.error e) ∨
          (∃ e, waitForTabReady h fuel = some (Except.error e)) ∨
          (∃ e, h.response = Except.error e)) ∧
        w'.store = { w.store with lastRefreshAt := some h.now, lastRefreshStatus := some "failed" } ∧
        Effect.storageSet ["lastRefreshAt", "lastRefreshStatus"] ∈ w'.log) := by
  have hlog : ∀ (t : Option Int) (v : World) (e : Effect), e ∈ v.log → e ∈ (closeTab h t v).log := by
    intro t v e he
    unfold closeTab
    split
    · split
      · simp [he]
      · exact he
    · exact he
  unfold runRefreshFlow refreshAttempt at hrun
  cases hc : h.createTab with
  | error e =>
    rw [hc] at hrun
    simp only [Option.some.injEq] at hrun
    subst hrun
    right
    refine ⟨Or.inl ⟨e, rfl⟩, ?_, ?_⟩
    · rw [closeTab_store]; rfl
    · apply hlog; simp [World.storageSet]
  | ok tabId =>
    rw [hc] at hrun
    cases hw : waitForTabReady h fuel with
    | none => rw [hw] at hrun; simp at hrun
    | some r =>
      rw [hw] at hrun
      cases r with
      | error e =>
        simp only [Option.some.injEq] at hrun
        subst hrun
        right
        refine ⟨Or.inr (Or.inl ⟨e, rfl⟩), ?_, ?_⟩
        · rw [closeTab_store]; rfl
        · apply hlog; simp [World.storageSet]
      | ok u =>
        cases hres : h.response with
        | error e =>
          rw [hres] at hrun
          simp only [Option.some.injEq] at hrun
          subst hrun
          right
          refine ⟨Or.inr (Or.inr ⟨e, rfl⟩), ?_, ?_⟩
          · rw [closeTab_store]; rfl
          · apply hlog; simp [World.storageSet]
        | ok resp =>
          rw [hres] at hrun
          simp only [Option.some.injEq] at hrun
          subst hrun
          left
          refine ⟨tabId, resp, rfl, rfl, rfl, ?_, ?_, ?_, ?_⟩
          · rw [closeTab_store]
            split
            · split <;> simp [World.storageSet]
            · simp [World.storageSet]
          · rw [closeTab_store]
            split
            · split <;> simp [World.storageSet]
            · simp [World.storageSet]
          · rw [closeTab_store]
            split
            · split <;> simp [World.storageSet]
            · simp [World.storageSet]
          · apply hlog
            split
            · split <;> simp [World.storageSet]
            · simp [World.storageSet]

/-- C3. Whenever `runRefreshFlow` completes, `lastRefreshAt` holds the time of the run and
has been written together with the status; `lastRefreshStatus` is `"success"` exactly when
the tab was opened, became ready and the content script's reply has a truthy `success`, and
is `"failed"` otherwise; on the exception path (opening the tab, waiting for it or messaging
it threw) the status is `"failed"` and `loginStatus` and `profileViews` keep their values.
The run does complete once the clock passes the 20 s limit of the wait. -/
theorem runRefreshFlow_records_status (mode : String) (h : RefreshHost) (w : World) :
    (∀ fuel w', runRefreshFlow mode h fuel w = some w' →
        w'.store.lastRefreshAt = some h.now ∧
        (Effect.storageSet ["lastRefreshAt", "lastRefreshStatus", "loginStatus", "profileViews"]
            ∈ w'.log ∨
          Effect.storageSet ["lastRefreshAt", "lastRefreshStatus"] ∈ w'.log)) ∧
      (∀ fuel w', runRefreshFlow mode h fuel w = some w' →
        (w'.store.lastRefreshStatus = some "success" ↔
          ∃ tabId r, h.createTab = Except.ok tabId ∧
            waitForTabReady h fuel = some (Except.ok ()) ∧
            h.response = Except.ok (some r) ∧ r.success.truthy = true) ∧
        (w'.store.lastRefreshStatus ≠ some "success" →
          w'.store.lastRefreshStatus = some "failed")) ∧
      (∀ fuel w', runRefreshFlow mode h fuel w = some w' →
        ((∃ e, h.createTab = Except.error e) ∨
            (∃ e, waitForTabReady h fuel = some (Except.error e)) ∨
            (∃ e, h.response = Except.error e)) →
        w'.store.lastRefreshStatus = some "failed" ∧
          w'.store.loginStatus = w.store.loginStatus ∧
          w'.store.profileViews = w.store.profileViews) ∧
      (∀ k, ¬ (h.clock (k + 1) - h.clock 0 < 20000) →
        ∃ w', runRefreshFlow mode h (k + 1) w = some w') := by
  refine ⟨?_, ?_, ?_, ?_⟩
  · intro fuel w' hrun
    rcases runRefreshFlow_outcome mode h fuel w w' hrun with
      ⟨_, _, _, _, _, hat, _, _, hlog⟩ | ⟨_, hst, hlog⟩
    · exact ⟨hat, Or.inl hlog⟩
    · exact ⟨by rw [hst], Or.inr hlog⟩
  · intro fuel w' hrun
    rcases runRefreshFlow_outcome mode h fuel w w' hrun with
      ⟨tabId, resp, hc, hw, hr, _, hstatus, _, _⟩ | ⟨hex, hst, _⟩
    · rw [hstatus]
      cases resp with
      | none =>
        simp [readReply, JsVal.truthy, hr]
      | some r =>
        by_cases ht : r.success.truthy = true
        · simp only [readReply, ht, if_true, ne_eq, not_true_eq_false, false_implies, and_true,
            true_iff]
          exact ⟨tabId, r, hc, hw, hr, ht⟩
        · constructor
          · constructor
            · intro hs
              simp [readReply, ht] at hs
            · rintro ⟨_, r', _, _, hr', ht'⟩
              rw [hr] at hr'
              simp only [Except.ok.injEq, Option.some.injEq] at hr'
              subst hr'
              exact absurd ht' ht
          · intro _
            simp [readReply, ht]
    · rw [hst]
      constructor
      · constructor
        · intro hs
          simp at hs
        · rintro ⟨tabId, r, hc, hw, hr, _⟩
          rcases hex with ⟨e, he⟩ | ⟨e, he⟩ | ⟨e, he⟩
          · rw [hc] at he; cases he
          · rw [hw] at he; cases he
          · rw [hr] at he; cases he
      · intro _
        rfl
  · intro fuel w' hrun hex
    rcases runRefreshFlow_outcome mode h fuel w w' hrun with
      ⟨tabId, resp, hc, hw, hr, _, _, _, _⟩ | ⟨_, hst, _⟩
    · rcases hex with ⟨e, he⟩ | ⟨e, he⟩ | ⟨e, he⟩
      · rw [hc] at he; cases he
      · rw [hw] at he; cases he
      · rw [hr] at he; cases he
    · rw [hst]
      exact ⟨rfl, rfl, rfl⟩
  · intro k hk
    exact runRefreshFlow_returns mode h w k hk

theorem hasManualRefreshAccess_eq (now₁ now₂ : Int) (w : World) :
    hasManualRefreshAccess now₁ now₂ w =
      (decide (now₂ < (ensureInstallTimestamp now₁ w).1 + 3 * 86400000) || w.store.isPaid.truthy,
        (ensureInstallTimestamp now₁ w).2) := by
  have hD : DAY_MS = 86400000 := by decide
  have hT : TRIAL_DAYS = 3 := by decide
  have hact : decide (max 0 ((ensureInstallTimestamp now₁ w).1 + 3 * 86400000 - now₂) > 0)
      = decide (now₂ < (ensureInstallTimestamp now₁ w).1 + 3 * 86400000) := by
    simp only [gt_iff_lt, lt_max_iff, lt_self_iff_false, false_or, sub_pos]
  simp only [hasManualRefreshAccess, getTrialState, hD, hT, hact]
  congr 1
  by_cases hu : w.store.isPaid = JsVal.undefined
  · cases hb : decide (now₂ < (ensureInstallTimestamp now₁ w).1 + 3 * 86400000) <;>
      simp [hu, JsVal.orElse, JsVal.truthy]
  · cases hb : decide (now₂ < (ensureInstallTimestamp now₁ w).1 + 3 * 86400000) <;>
      simp [hu, JsVal.orElse, JsVal.truthy]

/-- C1, as stated, fails for a stored install timestamp 0: at time 10^12 and without a paid
flag the trial of a timestamp 0 would be long over, yet access is granted, because the falsy
0 is replaced by the current time before the trial is evaluated. -/
theorem hasManualRefreshAccess_stored_zero :
    ¬ ((hasManualRefreshAccess 1000000000000 1000000000000
          { store := { installTimestamp := some 0, isPaid := JsVal.bool false } }).1 = true ↔
        ((1000000000000 : Int) < 0 + 3 * 86400000 ∨ (JsVal.bool false).truthy = true)) := by
  decide

/-- C1, amended.  For every non-zero stored install timestamp `t`, current time `n` and
stored `isPaid` value `p`, `hasManualRefreshAccess` is true exactly when
`n < t + 3 * 86400000` or `p` is truthy; for any store the same holds with `t` the timestamp
that `ensureInstallTimestamp` yields.  Without access, `handleMessage` on `MANUAL_REFRESH`
opens the paywall page and resolves to `{gated: true}`: the refresh flow does not run and
nothing is stored but a missing install timestamp.  With access it runs `runRefreshFlow` in
mode `"manual"` and resolves to `{gated: false}`, which it does once the refresh flow
completes.  It resolves to `{gated: true}` exactly when there is no access. -/
theorem handleMessage_manual_refresh_gate (h : MessageHost) (w : World) :
    (∀ t, w.store.installTimestamp = some t → t ≠ 0 →
        ((hasManualRefreshAccess h.now₁ h.now₂ w).1 = true ↔
          (h.now₂ < t + 3 * 86400000 ∨ w.store.isPaid.truthy = true))) ∧
      ((hasManualRefreshAccess h.now₁ h.now₂ w).1 = true ↔
        (h.now₂ < (ensureInstallTimestamp h.now₁ w).1 + 3 * 86400000
          ∨ w.store.isPaid.truthy = true)) ∧
      ((hasManualRefreshAccess h.now₁ h.now₂ w).1 = false →
        ∀ fuel, handleMessage Message.manualRefresh h fuel w =
          some (Handled.gated true,
            { (ensureInstallTimestamp h.now₁ w).2 with
              log := (ensureInstallTimestamp h.now₁ w).2.log
                ++ [Effect.tabsCreate PAYWALL_URL] })) ∧
      ((ensureInstallTimestamp h.now₁ w).2 = w ∨
        (ensureInstallTimestamp h.now₁ w).2 = w.storageSet ["installTimestamp"]
          (fun s => { s with installTimestamp := some h.now₁ })) ∧
      ((hasManualRefreshAccess h.now₁ h.now₂ w).1 = true →
        ∀ fuel, handleMessage Message.manualRefresh h fuel w =
          (runRefreshFlow "manual" h.refresh fuel (ensureInstallTimestamp h.now₁ w).2).map
            (fun w' => (Handled.gated false, w'))) ∧
      ((hasManualRefreshAccess h.now₁ h.now₂ w).1 = true →
        ∀ k, ¬ (h.refresh.clock (k + 1) - h.refresh.clock 0 < 20000) →
          ∃ w', handleMessage Message.manualRefresh h (k + 1) w =
            some (Handled.gated false, w')) ∧
      (∀ fuel r w', handleMessage Message.manualRefresh h fuel w = some (r, w') →
        (r = Handled.gated true ↔ (hasManualRefreshAccess h.now₁ h.now₂ w).1 = false)) := by
  have hacc := hasManualRefreshAccess_eq h.now₁ h.now₂ w
  have hgated : (hasManualRefreshAccess h.now₁ h.now₂ w).1 = false →
      ∀ fuel, handleMessage Message.manualRefresh h fuel w =
        some (Handled.gated true,
          { (ensureInstallTimestamp h.now₁ w).2 with
            log := (ensureInstallTimestamp h.now₁ w).2.log
              ++ [Effect.tabsCreate PAYWALL_URL] }) := by
    intro ha fuel
    rw [hacc] at ha
    simp only [handleMessage, hacc]
    simp only at ha
    rw [if_pos ha]
  have hopen : (hasManualRefreshAccess h.now₁ h.now₂ w).1 = true →
      ∀ fuel, handleMessage Message.manualRefresh h fuel w =
        (runRefreshFlow "manual" h.refresh fuel (ensureInstallTimestamp h.now₁ w).2).map
          (fun w' => (Handled.gated false, w')) := by
    intro ha fuel
    rw [hacc] at ha
    simp only [handleMessage, hacc]
    simp only at ha
    rw [if_neg (by rw [ha]; simp)]
    cases runRefreshFlow "manual" h.refresh fuel (ensureInstallTimestamp h.now₁ w).2 <;> simp
  refine ⟨?_, ?_, hgated, ?_, hopen, ?_, ?_⟩
  · intro t ht ht0
    have hens : ensureInstallTimestamp h.now₁ w = (t, w) := by
      simp [ensureInstallTimestamp, numTruthy, ht, ht0]
    rw [hacc, hens]
    simp
  · rw [hacc]
    simp
  · unfold ensureInstallTimestamp
    split
    · exact Or.inl rfl
    · exact Or.inr rfl
  · intro ha k hk
    obtain ⟨w', hw'⟩ := runRefreshFlow_returns "manual" h.refresh
      (ensureInstallTimestamp h.now₁ w).2 k hk
    exact ⟨w', by rw [hopen ha, hw']; rfl⟩
  · intro fuel r w' hrun
    cases ha : (hasManualRefreshAccess h.now₁ h.now₂ w).1 with
    | false =>
      rw [hgated ha fuel] at hrun
      simp only [Option.some.injEq, Prod.mk.injEq] at hrun
      simp [← hrun.1]
    | true =>
      rw [hopen ha fuel] at hrun
      cases hr : runRefreshFlow "manual" h.refresh fuel (ensureInstallTimestamp h.now₁ w).2 with
      | none => rw [hr] at hrun; simp at hrun
      | some w₂ =>
        rw [hr] at hrun
        simp only [Option.map_some', Option.some.injEq, Prod.mk.injEq] at hrun
        simp [← hrun.1]

/-- Long after a trial that started at time 1000, without a paid flag, there is no access
and the request is gated. -/
theorem handleMessage_manual_refresh_gate_witness :
    sampleExpired.store.installTimestamp = some 1000 ∧ (1000 : Int) ≠ 0 ∧
      ((hasManualRefreshAccess sampleMessageHost.now₁ sampleMessageHost.now₂ sampleExpired).1
          = true ↔
        (sampleMessageHost.now₂ < 1000 + 3 * 86400000
          ∨ sampleExpired.store.isPaid.truthy = true)) ∧
      handleMessage Message.manualRefresh sampleMessageHost 0 sampleExpired =
        some (Handled.gated true,
          { sampleExpired with log := [Effect.tabsCreate PAYWALL_URL] }) :=
  ⟨rfl, by decide,
    (handleMessage_manual_refresh_gate sampleMessageHost sampleExpired).1 1000 rfl (by decide),
    (handleMessage_manual_refresh_gate sampleMessageHost sampleExpired).2.2.1 (by decide) 0⟩

/-- On the sample host the run completes with one unit of fuel and records a success. -/
theorem runRefreshFlow_records_status_witness :
    ∃ w', runRefreshFlow "auto" sampleRefreshHost 1 {} = some w' ∧
      w'.store.lastRefreshStatus = some "success" :=
  ⟨_, rfl,
    (((runRefreshFlow_records_status "auto" sampleRefreshHost {}).2.1 1 _ rfl).1).2
      ⟨some 7, _, rfl, rfl, rfl, rfl⟩⟩

/-- C6, as stated, fails for an existing alarm whose scheduled time is 0: `ensureAlarm`,
run at time 1000, does not store that scheduled time but `1000 + 86400000`. -/
theorem ensureAlarm_zero_scheduledTime :
    sampleZeroAlarm.alarmsGet DAILY_ALARM_NAME
        = some { name := "dailyProfileRefresh", scheduledTime := 0, periodInMinutes := some 1440 } ∧
      (ensureAlarm 1000 sampleZeroAlarm).store.nextRefreshAt = some 86401000 ∧
      (ensureAlarm 1000 sampleZeroAlarm).store.nextRefreshAt ≠ some 0 := by
  decide

/-- C6, amended.  `scheduleDailyRefresh`, called at time `now`, creates the alarm
`"dailyProfileRefresh"` with first firing time `now + 86400000` ms and period 1440 minutes
(both 24 hours) and then stores `nextRefreshAt` equal to that first firing time;
`ensureAlarm` does the same when no such alarm exists, and otherwise creates nothing, leaves
the alarms as they are and only stores the alarm's scheduled time, or `now + 86400000` when
that scheduled time is 0; the alarm listener runs `runRefreshFlow` in mode `"auto"` for an
alarm of that name and does nothing for any other name. -/
theorem daily_alarm_schedule (now : Int) (w : World) :
    ((scheduleDailyRefresh now w).alarmsGet "dailyProfileRefresh" =
        some { name := "dailyProfileRefresh", scheduledTime := now + 86400000,
               periodInMinutes := some 1440 } ∧
      (1440 : Int) * 60 * 1000 = 86400000 ∧
      (scheduleDailyRefresh now w).store = { w.store with nextRefreshAt := some (now + 86400000) } ∧
      (scheduleDailyRefresh now w).log = w.log ++
        [Effect.alarmsCreate "dailyProfileRefresh" (now + 86400000) 1440,
         Effect.storageSet ["nextRefreshAt"]]) ∧
      (w.alarmsGet "dailyProfileRefresh" = none →
        ensureAlarm now w = scheduleDailyRefresh now w) ∧
      (∀ a, w.alarmsGet "dailyProfileRefresh" = some a →
        (ensureAlarm now w).alarms = w.alarms ∧
        (ensureAlarm now w).log = w.log ++ [Effect.storageSet ["nextRefreshAt"]] ∧
        (ensureAlarm now w).store = { w.store with
          nextRefreshAt := some (if a.scheduledTime ≠ 0 then a.scheduledTime
            else now + 86400000) } ∧
        (a.scheduledTime ≠ 0 →
          (ensureAlarm now w).store = { w.store with nextRefreshAt := some a.scheduledTime })) ∧
      (∀ alarmName h fuel, alarmName ≠ "dailyProfileRefresh" →
        onAlarm alarmName h fuel w = some w) ∧
      (∀ h fuel, onAlarm "dailyProfileRefresh" h fuel w = runRefreshFlow "auto" h fuel w) := by
  have hname : DAILY_ALARM_NAME = "dailyProfileRefresh" := rfl
  refine ⟨⟨?_, by norm_num, ?_, ?_⟩, ?_, ?_, ?_, ?_⟩
  · simp [scheduleDailyRefresh, World.storageSet, World.alarmsCreate, World.alarmsGet, hname]
  · simp [scheduleDailyRefresh, World.storageSet, World.alarmsCreate]
  · simp [scheduleDailyRefresh, World.storageSet, World.alarmsCreate, hname]
  · intro hnone
    simp [ensureAlarm, hname, hnone]
  · intro a ha
    have hE : ensureAlarm now w = w.storageSet ["nextRefreshAt"] (fun s => { s with
        nextRefreshAt := some (if a.scheduledTime ≠ 0 then a.scheduledTime
          else now + 86400000) }) := by
      simp [ensureAlarm, hname, ha]
    rw [hE]
    refine ⟨rfl, rfl, rfl, ?_⟩
    intro h0
    simp [World.storageSet, h0]
  · intro alarmName h fuel hne
    simp [onAlarm, hname, hne]
  · intro h fuel
    simp [onAlarm, hname]

/-- An alarm scheduled for time 777 is kept, and 777 is what `ensureAlarm` stores. -/
theorem daily_alarm_schedule_witness :
    (ensureAlarm 1000
      { alarms := [{ name := "dailyProfileRefresh", scheduledTime := 777,
                     periodInMinutes := some 1440 }] }).store.nextRefreshAt = some 777 := by
  rw [((daily_alarm_schedule 1000
    { alarms := [{ name := "dailyProfileRefresh", scheduledTime := 777,
                   periodInMinutes := some 1440 }] }).2.2.1 _ rfl).2.2.2 (by decide)]

theorem includes_iff (s needle : JsString) :
    includes s needle = true ↔ needle.units <:+: s.units := by
  unfold includes
  rw [List.any_eq_true, List.infix_iff_prefix_suffix]
  constructor
  · rintro ⟨t, ht, hp⟩
    exact ⟨t, List.isPrefixOf_iff_prefix.mp hp, (List.mem_tails _ _).mp ht⟩
  · rintro ⟨t, hp, ht⟩
    exact ⟨t, (List.mem_tails _ _).mpr ht, List.isPrefixOf_iff_prefix.mpr hp⟩

theorem includes_of_includes (s big small : JsString) (hsub : includes big small = true)
    (h : includes s big = true) : includes s small = true := by
  rw [includes_iff] at *
  exact hsub.trans h

/-- C9. `detectLoggedIn` is the two-case rule `P` or (not `L` and not `B`); in particular a
page whose lower-cased text contains "naukri" is reported as logged in whatever else it
shows, and so is a page with empty text and no sign-in element. -/
theorem detectLoggedIn_two_case_rule (doc : Document) :
    detectLoggedIn doc = detectLoggedInRule doc ∧
      (includes (pageText doc) "naukri" = true → detectLoggedIn doc = true) ∧
      (pageText doc = "" → querySelector doc SIGN_IN_SELECTOR = none →
        detectLoggedIn doc = true) := by
  have hB : (querySelector doc SIGN_IN_SELECTOR).isSome
      = doc.elements.any (fun e => SIGN_IN_SELECTOR.any (fun c => c.matches e)) := by
    unfold querySelector querySelectorAll
    rw [Bool.eq_iff_iff]
    simp only [List.head?_isSome, ne_eq, List.filter_eq_nil_iff, not_forall, List.any_eq_true]
    constructor
    · rintro ⟨e, he, hm⟩
      exact ⟨e, he, by simpa using hm⟩
    · rintro ⟨e, he, hm⟩
      exact ⟨e, he, by simpa using hm⟩
  have hP : (["profile", "resume", "update profile", "naukri"].any
        (fun needle => includes (pageText doc) needle))
      = (includes (pageText doc) "profile" || includes (pageText doc) "resume"
          || includes (pageText doc) "naukri") := by
    have hup := includes_of_includes (pageText doc) "update profile" "profile" (by decide)
    cases h1 : includes (pageText doc) "profile" <;>
      cases h2 : includes (pageText doc) "resume" <;>
      cases h3 : includes (pageText doc) "naukri" <;>
      cases h4 : includes (pageText doc) "update profile" <;>
      simp_all [List.any]
  have hL : (["login", "sign in", "forgot password"].any
        (fun needle => includes (pageText doc) needle))
      = (includes (pageText doc) "login" || includes (pageText doc) "sign in"
          || includes (pageText doc) "forgot password") := by
    simp [List.any, Bool.or_assoc]
  have hrule : detectLoggedIn doc = detectLoggedInRule doc := by
    simp only [detectLoggedIn, detectLoggedInRule, hB, hP, hL]
    cases includes (pageText doc) "profile" <;>
      cases includes (pageText doc) "resume" <;>
      cases includes (pageText doc) "naukri" <;>
      cases includes (pageText doc) "login" <;>
      cases includes (pageText doc) "sign in" <;>
      cases includes (pageText doc) "forgot password" <;>
      cases doc.elements.any (fun e => SIGN_IN_SELECTOR.any (fun c => c.matches e)) <;>
      rfl
  refine ⟨hrule, ?_, ?_⟩
  · intro hn
    rw [hrule]
    simp [detectLoggedInRule, hn]
  · intro ht hq
    have hnone : doc.elements.any (fun e => SIGN_IN_SELECTOR.any (fun c => c.matches e))
        = false := by
      rw [← hB, hq]
      rfl
    rw [hrule]
    simp only [detectLoggedInRule, ht, hnone]
    decide

theorem takeWhile_append_dropWhile_of_imp {α : Type} (p q : α → Bool)
    (hpq : ∀ a, p a = true → q a = true) :
    ∀ l : List α, l.takeWhile p ++ (l.dropWhile p).takeWhile q = l.takeWhile q := by
  intro l
  induction l with
  | nil => rfl
  | cons a l ih =>
    by_cases hp : p a = true
    · simp [List.takeWhile_cons, List.dropWhile_cons, hp, hpq a hp, ih]
    · simp [List.takeWhile_cons, List.dropWhile_cons, hp]

theorem matchDigitsFrom_eq (cs : List Nat) :
    matchDigitsFrom cs =
      if cs.any isDigit then
        some ((cs.dropWhile (fun c => !isDigit c)).takeWhile isDigitOrComma)
      else none := by
  induction cs with
  | nil => rfl
  | cons c cs ih =>
    by_cases hc : isDigit c = true
    · have hq : ∀ a, isDigit a = true → isDigitOrComma a = true := by
        intro a ha
        simp [isDigitOrComma, ha]
      have happ := takeWhile_append_dropWhile_of_imp isDigit isDigitOrComma hq (c :: cs)
      simp only [matchDigitsFrom, matchDigitsAt]
      rw [happ]
      simp [List.takeWhile_cons, List.dropWhile_cons, hc]
    · have hc' : isDigit c = false := by simpa using hc
      simp only [matchDigitsFrom, matchDigitsAt]
      simp [List.takeWhile_cons, List.dropWhile_cons, hc', ih]

theorem isWhiteSpace_iff (u : Nat) : isWhiteSpace u = true ↔ u ∈ WHITESPACE := by
  simp [isWhiteSpace]

theorem trim_decomposition (s : JsString) :
    ∃ leading trailing : List Nat,
      s.units = leading ++ (trim s).units ++ trailing ∧
      (∀ u ∈ leading, u ∈ WHITESPACE) ∧ (∀ u ∈ trailing, u ∈ WHITESPACE) ∧
      (∀ u, (trim s).units.head? = some u → u ∉ WHITESPACE) ∧
      (∀ u, (trim s).units.getLast? = some u → u ∉ WHITESPACE) := by
  have hcore : (trim s).units =
      ((s.units.dropWhile isWhiteSpace).reverse.dropWhile isWhiteSpace).reverse := rfl
  have h1 := List.takeWhile_append_dropWhile isWhiteSpace s.units
  have h2 := List.takeWhile_append_dropWhile isWhiteSpace
    (s.units.dropWhile isWhiteSpace).reverse
  have hm : s.units.dropWhile isWhiteSpace =
      (trim s).units ++ ((s.units.dropWhile isWhiteSpace).reverse.takeWhile
        isWhiteSpace).reverse := by
    have := congrArg List.reverse h2
    rw [List.reverse_append, List.reverse_reverse] at this
    rw [hcore]
    exact this.symm
  have hnot : ∀ (l : List Nat) (u : Nat), (l.dropWhile isWhiteSpace).head? = some u →
      u ∉ WHITESPACE := by
    intro l u hu
    have hw := List.head?_dropWhile_not isWhiteSpace l
    rw [hu] at hw
    have hw' : isWhiteSpace u = false := hw
    intro hmem
    rw [(isWhiteSpace_iff u).mpr hmem] at hw'
    cases hw'
  refine ⟨s.units.takeWhile isWhiteSpace,
    ((s.units.dropWhile isWhiteSpace).reverse.takeWhile isWhiteSpace).reverse, ?_, ?_, ?_, ?_, ?_⟩
  · rw [List.append_assoc, ← hm, h1]
  · intro u hu
    exact (isWhiteSpace_iff u).mp (List.mem_takeWhile_imp hu)
  · intro u hu
    exact (isWhiteSpace_iff u).mp (List.mem_takeWhile_imp (List.mem_reverse.mp hu))
  · intro u hu
    apply hnot s.units u
    rw [hm]
    cases hc : (trim s).units with
    | nil => rw [hc] at hu; cases hu
    | cons a rest => rw [hc] at hu; simpa using hu
  · intro u hu
    apply hnot (s.units.dropWhile isWhiteSpace).reverse u
    rw [hcore, List.getLast?_reverse] at hu
    exact hu

theorem mem_trim (s : JsString) (c : Nat) (hc : c ∈ s.units) :
    c ∈ WHITESPACE ∨ c ∈ (trim s).units := by
  obtain ⟨leading, trailing, hs, hl, ht, _, _⟩ := trim_decomposition s
  rw [hs] at hc
  rcases List.mem_append.mp hc with h | h
  · rcases List.mem_append.mp h with h | h
    · exact Or.inl (hl c h)
    · exact Or.inr h
  · exact Or.inl (ht c h)

theorem not_views_of_trim_eq (s : JsString) (h : slice0 (trim s) 40 = "N/A") :
    includes (toLowerCase s) "views" = false := by
  have hdata : (trim s).units.take 40 = [78, 47, 65] := by
    have := congrArg JsString.units h
    exact this
  have hlen : (trim s).units.length = 3 := by
    have := congrArg List.length hdata
    simp only [List.length_take, List.length_cons, List.length_nil] at this
    omega
  have htrim : (trim s).units = [78, 47, 65] := by
    rw [← hdata, List.take_of_length_le (by omega)]
  have hchars : ∀ c ∈ s.units, c ∈ WHITESPACE ++ [78, 47, 65] := by
    intro c hc
    rcases mem_trim s c hc with hw | hm
    · exact List.mem_append_left _ hw
    · rw [htrim] at hm
      exact List.mem_append_right _ hm
  have hno : ∀ c ∈ WHITESPACE ++ [78, 47, 65], 118 ∉ lowerUnit c := by decide
  by_contra hinc
  have hinc' : includes (toLowerCase s) "views" = true := by simpa using hinc
  rw [includes_iff] at hinc'
  have hv : 118 ∈ (toLowerCase s).units := hinc'.subset (by decide)
  simp only [toLowerCase, List.mem_flatMap] at hv
  obtain ⟨c, hc, hcv⟩ := hv
  exact hno c (hchars c hc) hcv

/-- C5. Over the `div`, `span`, `p` and `strong` elements in document order,
`scrapeProfileViews` returns `"N/A"` exactly when none of them has text containing "views"
in lower case; otherwise, for the first such element, it returns the run of digits and
commas that starts at the first digit of its text when there is a digit; and when there is
none it returns the trimmed text cut to 40 characters (UTF-16 code units): the text is some
white space, a core that neither starts nor ends with white space, and some white space,
and the result is the beginning of the core, as long as the core or 40 units long. -/
theorem scrapeProfileViews_counter (doc : Document) :
    (scrapeProfileViews doc = "N/A" ↔
        ∀ e ∈ querySelectorAll doc VIEWS_SELECTOR,
          includes (toLowerCase e.textContent) "views" = false) ∧
      (∀ e, (querySelectorAll doc VIEWS_SELECTOR).find?
            (fun node => includes (toLowerCase node.textContent) "views") = some e →
        (e.textContent.units.any isDigit = true →
          scrapeProfileViews doc =
            ⟨(e.textContent.units.dropWhile (fun c => !isDigit c)).takeWhile isDigitOrComma⟩) ∧
        (e.textContent.units.any isDigit = false →
          ∃ leading core trailing : List Nat,
            e.textContent.units = leading ++ core ++ trailing ∧
            (∀ u ∈ leading, u ∈ WHITESPACE) ∧ (∀ u ∈ trailing, u ∈ WHITESPACE) ∧
            (∀ u, core.head? = some u → u ∉ WHITESPACE) ∧
            (∀ u, core.getLast? = some u → u ∉ WHITESPACE) ∧
            (scrapeProfileViews doc).units <+: core ∧
            (scrapeProfileViews doc).units.length = min 40 core.length)) := by
  have hpred : (fun node : Element =>
        includes (toLowerCase node.textContent) "profile views"
          || includes (toLowerCase node.textContent) "views")
      = (fun node : Element => includes (toLowerCase node.textContent) "views") := by
    funext node
    have := includes_of_includes (toLowerCase node.textContent) "profile views" "views"
      (by decide)
    cases h1 : includes (toLowerCase node.textContent) "profile views" <;>
      cases h2 : includes (toLowerCase node.textContent) "views" <;> simp_all
  have hdef : scrapeProfileViews doc =
      match (querySelectorAll doc VIEWS_SELECTOR).find?
          (fun node => includes (toLowerCase node.textContent) "views") with
      | none => "N/A"
      | some target =>
        match matchDigits target.textContent with
        | some m => m
        | none => slice0 (trim target.textContent) 40 := by
    simp only [scrapeProfileViews, hpred]
  have hdigits : ∀ e, (querySelectorAll doc VIEWS_SELECTOR).find?
        (fun node => includes (toLowerCase node.textContent) "views") = some e →
      e.textContent.units.any isDigit = true →
      scrapeProfileViews doc =
        ⟨(e.textContent.units.dropWhile (fun c => !isDigit c)).takeWhile isDigitOrComma⟩ := by
    intro e he hd
    rw [hdef, he]
    simp only [matchDigits, matchDigitsFrom_eq, hd, if_true, Option.map_some']
  have hplain : ∀ e, (querySelectorAll doc VIEWS_SELECTOR).find?
        (fun node => includes (toLowerCase node.textContent) "views") = some e →
      e.textContent.units.any isDigit = false →
      scrapeProfileViews doc = slice0 (trim e.textContent) 40 := by
    intro e he hd
    rw [hdef, he]
    simp [matchDigits, matchDigitsFrom_eq, hd]
  refine ⟨?_, ?_⟩
  · constructor
    · intro hna e he
      cases hfind : (querySelectorAll doc VIEWS_SELECTOR).find?
          (fun node => includes (toLowerCase node.textContent) "views") with
      | none =>
        have := List.find?_eq_none.mp hfind e he
        simpa using this
      | some target =>
        exfalso
        have htarget : includes (toLowerCase target.textContent) "views" = true := by
          have := List.find?_some hfind
          simpa using this
        cases hd : target.textContent.units.any isDigit with
        | true =>
          rw [hdigits target hfind hd] at hna
          have hdata := congrArg JsString.units hna
          have hmem : 78 ∈ (target.textContent.units.dropWhile
              (fun c => !isDigit c)).takeWhile isDigitOrComma := by
            have : (JsString.ofString "N/A").units = [78, 47, 65] := rfl
            rw [this] at hdata
            simp only at hdata
            rw [hdata]
            simp
          have := List.mem_takeWhile_imp hmem
          revert this
          decide
        | false =>
          rw [hplain target hfind hd] at hna
          have := not_views_of_trim_eq target.textContent hna
          rw [htarget] at this
          cases this
    · intro hall
      rw [hdef]
      have : (querySelectorAll doc VIEWS_SELECTOR).find?
          (fun node => includes (toLowerCase node.textContent) "views") = none := by
        rw [List.find?_eq_none]
        intro e he
        simp [hall e he]
      rw [this]
  · intro e he
    refine ⟨hdigits e he, ?_⟩
    intro hd
    obtain ⟨leading, trailing, hs, hl, ht, hhead, hlast⟩ := trim_decomposition e.textContent
    refine ⟨leading, (trim e.textContent).units, trailing, hs, hl, ht, hhead, hlast, ?_, ?_⟩
    · rw [hplain e he hd]
      exact List.take_prefix 40 _
    · rw [hplain e he hd]
      show ((trim e.textContent).units.take 40).length = _
      rw [List.length_take]

theorem looksLikeRefresh_eq (el : Element) : looksLikeRefresh el = hasRefreshText el := by
  unfold looksLikeRefresh hasRefreshText
  have hup := includes_of_includes (trim (toLowerCase el.text)) "update profile" "update"
    (by decide)
  by_cases hempty : trim (toLowerCase el.text) = ""
  · rw [hempty]
    decide
  · cases h1 : includes (trim (toLowerCase el.text)) "refresh" <;>
      cases h2 : includes (trim (toLowerCase el.text)) "update" <;>
      cases h3 : includes (trim (toLowerCase el.text)) "save" <;>
      cases h4 : includes (trim (toLowerCase el.text)) "update profile" <;>
      simp_all [List.any]

theorem findSome?_eq_some_split {α β : Type} (f : α → Option β) (b : β) :
    ∀ l : List α, l.findSome? f = some b ↔
      ∃ l₁ a l₂, l = l₁ ++ a :: l₂ ∧ (∀ x ∈ l₁, f x = none) ∧ f a = some b := by
  intro l
  induction l with
  | nil => simp
  | cons x xs ih =>
    rw [List.findSome?_cons]
    cases hx : f x with
    | some y =>
      constructor
      · intro h
        exact ⟨[], x, xs, rfl, by simp, by rw [hx]; exact h⟩
      · rintro ⟨l₁, a, l₂, hl, hnone, ha⟩
        cases l₁ with
        | nil =>
          simp only [List.nil_append, List.cons.injEq] at hl
          rw [← hl.1, hx] at ha
          exact ha
        | cons z zs =>
          simp only [List.cons_append, List.cons.injEq] at hl
          have := hnone z (by simp)
          rw [← hl.1, hx] at this
          cases this
    | none =>
      simp only
      rw [ih]
      constructor
      · rintro ⟨l₁, a, l₂, hl, hnone, ha⟩
        refine ⟨x :: l₁, a, l₂, by simp [hl], ?_, ha⟩
        intro z hz
        rcases List.mem_cons.mp hz with rfl | hz
        · exact hx
        · exact hnone z hz
      · rintro ⟨l₁, a, l₂, hl, hnone, ha⟩
        cases l₁ with
        | nil =>
          simp only [List.nil_append, List.cons.injEq] at hl
          rw [← hl.1, hx] at ha
          cases ha
        | cons z zs =>
          simp only [List.cons_append, List.cons.injEq] at hl
          exact ⟨zs, a, l₂, hl.2, fun y hy => hnone y (by simp [hy]), ha⟩

/-- C8. `findRefreshButton` returns `null` exactly when no element matched by `button`, `a`,
`div[role='button']` or `span` has lower-cased trimmed text containing "refresh", "update"
or "save"; otherwise it returns the first such element, in document order, of the earliest
selector of the list that has one, so that a matching button wins over anchors and spans
wherever they stand; and when it returns `null` on a page detected as logged in,
`performRefresh` throws without any click or message. -/
theorem findRefreshButton_selector_priority (doc : Document) :
    (findRefreshButton doc = none ↔
        ∀ e ∈ querySelectorAll doc
            [Compound.tag "button", Compound.tag "a", Compound.attrEquals "div" "role" "button",
             Compound.tag "span"],
          hasRefreshText e = false) ∧
      (∀ el, findRefreshButton doc = some el ↔
        ∃ earlier selector later,
          [[Compound.tag "button"], [Compound.tag "a"],
            [Compound.attrEquals "div" "role" "button"], [Compound.tag "span"]]
              = earlier ++ selector :: later ∧
          (∀ s ∈ earlier, ∀ e ∈ querySelectorAll doc s, hasRefreshText e = false) ∧
          (querySelectorAll doc selector).find? hasRefreshText = some el) ∧
      ((∃ e ∈ doc.elements, e.tag = "button" ∧ hasRefreshText e = true) →
        findRefreshButton doc =
          doc.elements.find? (fun e => decide (e.tag = "button") && hasRefreshText e)) ∧
      (∀ mode h, h.atFind = doc → detectLoggedIn h.atDetect = true →
        findRefreshButton doc = none →
        performRefresh mode h =
          (Except.error "Could not find refresh/update button on profile page.", [])) := by
  have hfun : looksLikeRefresh = hasRefreshText := funext looksLikeRefresh_eq
  have hdef : findRefreshButton doc = REFRESH_SELECTORS.findSome? (fun selector =>
      (querySelectorAll doc selector).find? hasRefreshText) := by
    simp only [findRefreshButton, hfun]
  refine ⟨?_, ?_, ?_, ?_⟩
  · rw [hdef, List.findSome?_eq_none_iff]
    simp only [REFRESH_SELECTORS, querySelectorAll, List.mem_cons, List.mem_singleton,
      List.find?_eq_none, List.mem_filter, List.any_cons, List.any_nil, Bool.or_false,
      Bool.or_eq_true, forall_eq_or_imp, forall_eq, List.not_mem_nil, false_or,
      IsEmpty.forall_iff, implies_true, and_true, and_imp, Bool.not_eq_true]
    constructor
    · rintro ⟨h1, h2, h3, h4⟩ e he hm
      rcases hm with hm | hm | hm | hm
      · exact h1 e he hm
      · exact h2 e he hm
      · exact h3 e he hm
      · exact h4 e he hm
    · intro h
      exact ⟨fun e he hm => h e he (Or.inl hm), fun e he hm => h e he (Or.inr (Or.inl hm)),
        fun e he hm => h e he (Or.inr (Or.inr (Or.inl hm))),
        fun e he hm => h e he (Or.inr (Or.inr (Or.inr hm)))⟩
  · intro el
    rw [hdef, findSome?_eq_some_split]
    constructor
    · rintro ⟨l₁, a, l₂, hl, hnone, ha⟩
      refine ⟨l₁, a, l₂, hl, ?_, ha⟩
      intro s hs e he
      have := List.find?_eq_none.mp (hnone s hs) e he
      simpa using this
    · rintro ⟨l₁, a, l₂, hl, hnone, ha⟩
      refine ⟨l₁, a, l₂, hl, ?_, ha⟩
      intro s hs
      rw [List.find?_eq_none]
      intro e he
      simp [hnone s hs e he]
  · rintro ⟨e, he, htag, ht⟩
    rw [hdef]
    have hsome : ((querySelectorAll doc [Compound.tag "button"]).find? hasRefreshText).isSome := by
      rw [List.find?_isSome]
      refine ⟨e, ?_, ht⟩
      simp [querySelectorAll, Compound.matches, he, htag]
    simp only [REFRESH_SELECTORS]
    rw [List.findSome?_cons]
    cases hfb : (querySelectorAll doc [Compound.tag "button"]).find? hasRefreshText with
    | none => rw [hfb] at hsome; cases hsome
    | some b =>
      simp only
      rw [← hfb]
      simp only [querySelectorAll, List.find?_filter, List.any_cons, List.any_nil,
        Bool.or_false, Compound.matches]
      congr 1
      funext a
      simp
  · intro mode h hdoc hlog hnone
    simp [performRefresh, hlog, hdoc, hnone]

theorem performRefresh_of_upload (mode : String) (h : ContentHost) (button : Element)
    (r : UploadResult) (hlog : detectLoggedIn h.atDetect = true)
    (hbtn : findRefreshButton h.atFind = some button)
    (hup : tryResumeUpload h.upload = Except.ok r) :
    (performRefresh mode h).1 =
      match safeClick h.dispatch h.click button with
      | Except.error e => Except.error e
      | Except.ok _ =>
        match h.sendLoginStatus, h.sendInsights with
        | Except.ok (), Except.ok () =>
          Except.ok { success := true, isLoggedIn := true,
                      profileViews := scrapeProfileViews h.atScrape,
                      mode := some mode, resume := some r }
        | Except.error e, _ => Except.error e
        | Except.ok (), Except.error e => Except.error e := by
  unfold performRefresh
  simp only [hlog, hbtn, hup]
  cases safeClick h.dispatch h.click button with
  | error e => simp
  | ok clicked =>
    cases h.sendLoginStatus with
    | error e => simp
    | ok u =>
      cases h.sendInsights with
      | error e => simp
      | ok v => simp

theorem tryResumeUpload_results (u : UploadHost) (r : UploadResult)
    (h : tryResumeUpload u = Except.ok r) :
    r ∈ [{ success := false, reason := "Resume handle not configured." },
         { success := false, reason := "File permission not granted for selected resume." },
         { success := false, reason := "Resume file is missing or permission revoked." },
         { success := false, reason := "Resume file input not found on profile page." },
         { success := false, reason := "Failed to attach resume to upload input." },
         ({ success := true, reason := "Resume attached and change event dispatched." } :
            UploadResult)] := by
  unfold tryResumeUpload tryResumeUploadRun at h
  repeat' split at h
  all_goals simp only [Except.ok.injEq, reduceCtorEq] at h
  all_goals subst h
  all_goals simp

/-- C4, as stated, fails when a runtime message is rejected: on the sample page, detected
as logged in and with a refresh control, `tryResumeUpload` returns a result, yet
`performRefresh` throws because the `CONTENT_INSIGHTS` message is rejected, and the reply
of the listener has `success = false`. -/
theorem performRefresh_message_rejected :
    detectLoggedIn sampleClosedPortHost.atDetect = true ∧
      findRefreshButton sampleClosedPortHost.atFind = some sampleButton ∧
      tryResumeUpload sampleClosedPortHost.upload
        = Except.ok { success := false, reason := "Resume handle not configured." } ∧
      (performRefresh "auto" sampleClosedPortHost).1 = Except.error "port closed" ∧
      (onMessage "EXECUTE_REFRESH" "auto" sampleClosedPortHost).1 =
        some { success := false, isLoggedIn := false, profileViews := "N/A",
               error := some "port closed" } :=
  ⟨by decide, by decide, rfl, rfl, rfl⟩

/-- C4, amended.  On a page detected as logged in on which `findRefreshButton` finds a
control, provided the click on that control and the two runtime messages do not throw:
whatever `tryResumeUpload` returns (one of its five failure results or its success result),
`performRefresh` returns `success = true` and `isLoggedIn = true`, and the upload result
appears in the `resume` field of the reply only: with another upload result the reply is
the same but for that field. -/
theorem performRefresh_upload_optional (mode : String) (h : ContentHost) (button : Element)
    (r : UploadResult) (clicked : List PageEffect)
    (hlog : detectLoggedIn h.atDetect = true)
    (hbtn : findRefreshButton h.atFind = some button)
    (hup : tryResumeUpload h.upload = Except.ok r)
    (hclick : safeClick h.dispatch h.click button = Except.ok clicked)
    (hs : h.sendLoginStatus = Except.ok ()) (hi : h.sendInsights = Except.ok ()) :
    r ∈ [{ success := false, reason := "Resume handle not configured." },
         { success := false, reason := "File permission not granted for selected resume." },
         { success := false, reason := "Resume file is missing or permission revoked." },
         { success := false, reason := "Resume file input not found on profile page." },
         { success := false, reason := "Failed to attach resume to upload input." },
         ({ success := true, reason := "Resume attached and change event dispatched." } :
            UploadResult)] ∧
      (performRefresh mode h).1 =
        Except.ok { success := true, isLoggedIn := true,
                    profileViews := scrapeProfileViews h.atScrape,
                    mode := some mode, resume := some r } ∧
      (∀ u' r', tryResumeUpload u' = Except.ok r' →
        (performRefresh mode { h with upload := u' }).1 =
          Except.ok { success := true, isLoggedIn := true,
                      profileViews := scrapeProfileViews h.atScrape,
                      mode := some mode, resume := some r' }) := by
  refine ⟨tryResumeUpload_results h.upload r hup, ?_, ?_⟩
  · rw [performRefresh_of_upload mode h button r hlog hbtn hup, hclick, hs, hi]
  · intro u' r' hup'
    rw [performRefresh_of_upload mode { h with upload := u' } button r' hlog hbtn hup']
    simp only [hclick, hs, hi]

/-- On the sample page, with no resume configured, the refresh still succeeds; with a
resume configured and no file input on the page, the "Update" anchor is clicked as a resume
trigger and the refresh succeeds as well; on a page with a file input the resume is
attached and the two events are dispatched. -/
theorem performRefresh_upload_optional_witness :
    detectLoggedIn sampleContentHost.atDetect = true ∧
      findRefreshButton sampleContentHost.atFind = some sampleButton ∧
      tryResumeUpload sampleContentHost.upload
        = Except.ok { success := false, reason := "Resume handle not configured." } ∧
      safeClick sampleContentHost.dispatch sampleContentHost.click sampleButton
        = Except.ok [PageEffect.dispatchClick sampleButton] ∧
      sampleContentHost.sendLoginStatus = Except.ok () ∧
      sampleContentHost.sendInsights = Except.ok () ∧
      (performRefresh "auto" sampleContentHost).1 =
        Except.ok { success := true, isLoggedIn := true, profileViews := "1,234",
                    mode := some "auto",
                    resume := some { success := false,
                                     reason := "Resume handle not configured." } } ∧
      performRefresh "auto" { sampleContentHost with upload := sampleSearchHost } =
        (Except.ok { success := true, isLoggedIn := true, profileViews := "1,234",
                     mode := some "auto",
                     resume := some { success := false,
                                      reason := "Resume file input not found on profile page." } },
          [PageEffect.dispatchClick sampleButton,
           PageEffect.dispatchClick
             { tag := "a", attrs := [("href", "/login")], textContent := "Update" },
           PageEffect.sendLoginStatus true, PageEffect.sendInsights "1,234"]) ∧
      tryResumeUploadRun sampleAttachHost =
        (Except.ok { success := true,
                     reason := "Resume attached and change event dispatched." },
          [PageEffect.setFiles sampleFileInput, PageEffect.dispatchInput sampleFileInput,
           PageEffect.dispatchChange sampleFileInput]) :=
  ⟨by decide, by decide, rfl, rfl, rfl, rfl,
    (performRefresh_upload_optional "auto" sampleContentHost sampleButton
      { success := false, reason := "Resume handle not configured." }
      [PageEffect.dispatchClick sampleButton]
      (by decide) (by decide) rfl rfl rfl rfl).2.1,
    rfl, rfl⟩

theorem onMessage_cases (mode : String) (h : ContentHost) :
    (∃ button clicked r,
        detectLoggedIn h.atDetect = true ∧ findRefreshButton h.atFind = some button ∧
        safeClick h.dispatch h.click button = Except.ok clicked ∧
        tryResumeUpload h.upload = Except.ok r ∧
        h.sendLoginStatus = Except.ok () ∧ h.sendInsights = Except.ok () ∧
        (onMessage "EXECUTE_REFRESH" mode h).1 =
          some { success := true, isLoggedIn := true,
                 profileViews := scrapeProfileViews h.atScrape,
                 mode := some mode, resume := some r }) ∨
      (¬ (detectLoggedIn h.atDetect = true ∧
          ∃ button, findRefreshButton h.atFind = some button ∧
            (∃ clicked, safeClick h.dispatch h.click button = Except.ok clicked) ∧
            (∃ r, tryResumeUpload h.upload = Except.ok r) ∧
            h.sendLoginStatus = Except.ok () ∧ h.sendInsights = Except.ok ()) ∧
        ∃ error,
          (onMessage "EXECUTE_REFRESH" mode h).1 =
            some { success := false, isLoggedIn := false, profileViews := "N/A",
                   error := error }) := by
  cases hlog : detectLoggedIn h.atDetect with
  | false =>
    right
    refine ⟨by simp, ?_⟩
    cases hs : h.sendLoginStatus with
    | error e => exact ⟨some e, by simp [onMessage, performRefresh, hlog, hs]⟩
    | ok u => exact ⟨none, by simp [onMessage, performRefresh, hlog, hs]⟩
  | true =>
    cases hbtn : findRefreshButton h.atFind with
    | none =>
      right
      refine ⟨by simp, ?_⟩
      exact ⟨some "Could not find refresh/update button on profile page.",
        by simp [onMessage, performRefresh, hlog, hbtn]⟩
    | some button =>
      cases hc : safeClick h.dispatch h.click button with
      | error e =>
        right
        refine ⟨by simp [hc], ?_⟩
        exact ⟨some e, by simp [onMessage, performRefresh, hlog, hbtn, hc]⟩
      | ok clicked =>
        cases hu : tryResumeUpload h.upload with
        | error e =>
          right
          refine ⟨by simp [hu], ?_⟩
          exact ⟨some e, by simp [onMessage, performRefresh, hlog, hbtn, hc, hu]⟩
        | ok r =>
          cases hs : h.sendLoginStatus with
          | error e =>
            right
            refine ⟨by simp, ?_⟩
            exact ⟨some e, by simp [onMessage, performRefresh, hlog, hbtn, hc, hu, hs]⟩
          | ok u =>
            cases hi : h.sendInsights with
            | error e =>
              right
              refine ⟨by simp, ?_⟩
              exact ⟨some e,
                by simp [onMessage, performRefresh, hlog, hbtn, hc, hu, hs, hi]⟩
            | ok v =>
              left
              exact ⟨button, clicked, r, rfl, rfl, hc, rfl, rfl, rfl,
                by simp [onMessage, performRefresh, hlog, hbtn, hc, hu, hs, hi]⟩

/-- C10. The content script answers every `EXECUTE_REFRESH` message, and in its reply
`isLoggedIn` equals `success`: the reply is `{success: true, isLoggedIn: true, ...}` exactly
when the page is detected as logged in, a refresh control is found and none of the later
steps (the click, the resume upload, the two runtime messages) throws, and it is
`{success: false, isLoggedIn: false, profileViews: "N/A"}` otherwise, also when the page was
detected as logged in but no refresh control was found.  Hence, when `runRefreshFlow` gets
the tab ready and receives that reply (or none), the stored `loginStatus` is `"logged_in"`
exactly when the stored `lastRefreshStatus` is `"success"`. -/
theorem reply_isLoggedIn_eq_success (mode : String) (h : ContentHost) :
    (∃ reply, (onMessage "EXECUTE_REFRESH" mode h).1 = some reply ∧
        reply.isLoggedIn = reply.success ∧
        (reply.success = true ↔
          (detectLoggedIn h.atDetect = true ∧
            ∃ button, findRefreshButton h.atFind = some button ∧
              (∃ clicked, safeClick h.dispatch h.click button = Except.ok clicked) ∧
              (∃ r, tryResumeUpload h.upload = Except.ok r) ∧
              h.sendLoginStatus = Except.ok () ∧ h.sendInsights = Except.ok ())) ∧
        (reply.success = false → reply.isLoggedIn = false ∧ reply.profileViews = "N/A") ∧
        (detectLoggedIn h.atDetect = true → findRefreshButton h.atFind = none →
          reply = { success := false, isLoggedIn := false, profileViews := "N/A",
                    error := some "Could not find refresh/update button on profile page." })) ∧
      (∀ (type flowMode : String) (rh : RefreshHost) (fuel : Nat) (w w' : World),
        rh.response = Except.ok ((onMessage type mode h).1.map Reply.toResponse) →
        (∃ tabId, rh.createTab = Except.ok tabId) →
        waitForTabReady rh fuel = some (Except.ok ()) →
        runRefreshFlow flowMode rh fuel w = some w' →
        (w'.store.loginStatus = some "logged_in" ↔
          w'.store.lastRefreshStatus = some "success")) := by
  have hcases := onMessage_cases mode h
  refine ⟨?_, ?_⟩
  · rcases hcases with ⟨button, clicked, r, hlog, hbtn, hc, hu, hs, hi, hrep⟩ | ⟨hnot, e, hrep⟩
    · refine ⟨_, hrep, rfl, ?_, ?_, ?_⟩
      · simp only [true_iff]
        exact ⟨hlog, button, hbtn, ⟨clicked, hc⟩, ⟨r, hu⟩, hs, hi⟩
      · intro hf
        cases hf
      · intro _ hnone
        rw [hbtn] at hnone
        cases hnone
    · refine ⟨_, hrep, rfl, ?_, ?_, ?_⟩
      · constructor
        · intro hf
          cases hf
        · intro hall
          exact absurd hall hnot
      · intro _
        exact ⟨rfl, rfl⟩
      · intro hlog hnone
        have : (onMessage "EXECUTE_REFRESH" mode h).1 =
            some { success := false, isLoggedIn := false, profileViews := "N/A",
                   error := some "Could not find refresh/update button on profile page." } := by
          simp [onMessage, performRefresh, hlog, hnone]
        rw [hrep] at this
        exact Option.some.inj this
  · intro type flowMode rh fuel w w' hresp hcreate hwait hrun
    have hresp_shape : ∀ r, (onMessage type mode h).1 = some r → r.isLoggedIn = r.success := by
      intro r hr
      by_cases ht : type = "EXECUTE_REFRESH"
      · subst ht
        rcases hcases with ⟨_, _, _, _, _, _, _, _, _, hrep⟩ | ⟨_, _, hrep⟩
        · rw [hrep] at hr
          rw [← Option.some.inj hr]
        · rw [hrep] at hr
          rw [← Option.some.inj hr]
      · simp [onMessage, ht] at hr
    rcases runRefreshFlow_outcome flowMode rh fuel w w' hrun with
      ⟨_, resp, _, _, hr, _, hstatus, hlogin, _⟩ | ⟨hex, _, _⟩
    · rw [hresp] at hr
      simp only [Except.ok.injEq] at hr
      rw [hstatus, hlogin, ← hr]
      cases hrep : (onMessage type mode h).1 with
      | none => simp [readReply, JsVal.truthy]
      | some r =>
        have := hresp_shape r hrep
        simp only [Option.map_some', readReply, Reply.toResponse, JsVal.truthy, this]
        cases r.success <;> simp
    · exfalso
      rcases hex with ⟨e, he⟩ | ⟨e, he⟩ | ⟨e, he⟩
      · obtain ⟨t, ht⟩ := hcreate
        rw [ht] at he
        cases he
      · rw [hwait] at he
        cases he
      · rw [hresp] at he
        cases he

/-- The reply computed on the sample page, fed to `runRefreshFlow`: both statuses agree. -/
theorem reply_isLoggedIn_eq_success_witness :
    ∃ w', runRefreshFlow "auto" sampleLinkedHost 1 {} = some w' ∧
      (w'.store.loginStatus = some "logged_in" ↔ w'.store.lastRefreshStatus = some "success") :=
  ⟨_, rfl,
    (reply_isLoggedIn_eq_success "auto" sampleContentHost).2 "EXECUTE_REFRESH" "auto"
      sampleLinkedHost 1 {} _ rfl ⟨_, rfl⟩ rfl rfl⟩

/-- The sample page shows a login link and the word "Login", and is still reported as
logged in because its text contains "naukri". -/
theorem detectLoggedIn_two_case_rule_witness :
    includes (pageText samplePage) "naukri" = true ∧
      includes (pageText samplePage) "login" = true ∧
      (querySelector samplePage SIGN_IN_SELECTOR).isSome = true ∧
      detectLoggedIn samplePage = true :=
  ⟨by decide, by decide, by decide,
    (detectLoggedIn_two_case_rule samplePage).2.1 (by decide)⟩

/-- On the sample page the counter is read from the span: "1,234".  A text without digit is
trimmed; "views " and 20 faces, 46 code units, is cut after the 17th face, at 40 units; and
"views" and 20 faces is cut in the middle of the 18th face, whose first half remains. -/
theorem scrapeProfileViews_counter_witness :
    scrapeProfileViews samplePage = "1,234" ∧
      scrapeProfileViews (sampleParagraph "  Profile Views   ") = "Profile Views" ∧
      scrapeProfileViews (sampleParagraph (JsString.ofString ("views " ++ sampleFaces 20)))
        = JsString.ofString ("views " ++ sampleFaces 17) ∧
      (scrapeProfileViews
          (sampleParagraph (JsString.ofString ("views " ++ sampleFaces 20)))).units.length
        = 40 ∧
      (scrapeProfileViews (sampleParagraph (JsString.ofString ("views" ++ sampleFaces 20)))).units
        = (JsString.ofString ("views" ++ sampleFaces 17)).units ++ [0xD83D] ∧
      scrapeProfileViews (sampleParagraph "nothing to see") = "N/A" := by
  refine ⟨?_, by decide, by decide, by decide, by decide, by decide⟩
  rw [((scrapeProfileViews_counter samplePage).2
    { tag := "span", textContent := "Profile views: 1,234 this week" } (by decide)).1
    (by decide)]
  decide

/-- On the sample page the "Update" anchor comes first in the document, yet the "Save"
button is the control that is returned. -/
theorem findRefreshButton_selector_priority_witness :
    samplePage.elements.head? =
        some { tag := "a", attrs := [("href", "/login")], textContent := "Update" } ∧
      hasRefreshText { tag := "a", attrs := [("href", "/login")], textContent := "Update" }
        = true ∧
      findRefreshButton samplePage = some sampleButton := by
  refine ⟨rfl, by decide, ?_⟩
  rw [(findRefreshButton_selector_priority samplePage).2.2.1
    ⟨sampleButton, by decide, by decide, by decide⟩]
  decide

theorem floor_intCast_div_numeral (a : Int) (b : ℕ) :
    ⌊(a : ℚ) / (b : ℚ)⌋ = a / (b : ℤ) :=
  Rat.floor_intCast_div_natCast a b

/-- C11. `formatCountdown` returns "Not scheduled" when the timestamp is `null` or 0;
otherwise "Due now" when `ts - n ≤ 0`; and otherwise `"<h>h <m>m"` with
`h = ⌊(ts - n) / 3600000⌋` and `m = ⌊((ts - n) mod 3600000) / 60000⌋`, where `0 ≤ m ≤ 59`
and `60 * h + m = ⌊(ts - n) / 60000⌋`; in particular a positive remainder below one minute
is shown as "0h 0m". -/
theorem formatCountdown_hours_minutes (ts n : Int) :
    formatCountdown none n = "Not scheduled" ∧
      formatCountdown (some 0) n = "Not scheduled" ∧
      (ts ≠ 0 → ts - n ≤ 0 → formatCountdown (some ts) n = "Due now") ∧
      (ts ≠ 0 → 0 < ts - n →
        formatCountdown (some ts) n =
            toString ⌊((ts - n : Int) : ℚ) / 3600000⌋ ++ "h "
              ++ toString ⌊(((ts - n) % 3600000 : Int) : ℚ) / 60000⌋ ++ "m" ∧
          0 ≤ ⌊(((ts - n) % 3600000 : Int) : ℚ) / 60000⌋ ∧
          ⌊(((ts - n) % 3600000 : Int) : ℚ) / 60000⌋ ≤ 59 ∧
          60 * ⌊((ts - n : Int) : ℚ) / 3600000⌋ + ⌊(((ts - n) % 3600000 : Int) : ℚ) / 60000⌋
            = ⌊((ts - n : Int) : ℚ) / 60000⌋) ∧
      (ts ≠ 0 → 0 < ts - n → ts - n < 60000 → formatCountdown (some ts) n = "0h 0m") := by
  have hH : ∀ a : Int, ⌊(a : ℚ) / 3600000⌋ = a / 3600000 := by
    intro a
    have := floor_intCast_div_numeral a 3600000
    simpa using this
  have hM : ∀ a : Int, ⌊(a : ℚ) / 60000⌋ = a / 60000 := by
    intro a
    have := floor_intCast_div_numeral a 60000
    simpa using this
  have hpos : ts ≠ 0 → 0 < ts - n →
      formatCountdown (some ts) n =
        toString ((ts - n) / 3600000) ++ "h "
          ++ toString ((ts - n) % 3600000 / 60000) ++ "m" := by
    intro h0 hd
    have hrem : jsRem (ts - n) 3600000 = (ts - n) % 3600000 :=
      Int.tmod_eq_emod (le_of_lt hd) (by decide)
    simp only [formatCountdown, h0, if_false, not_le.mpr hd, mathFloorDiv, hrem,
      numberToString]
  refine ⟨rfl, rfl, ?_, ?_, ?_⟩
  · intro h0 hd
    simp only [formatCountdown, h0, if_false, hd, if_true]
  · intro h0 hd
    rw [hH, hM, hM]
    refine ⟨hpos h0 hd, ?_, ?_, ?_⟩ <;> omega
  · intro h0 hd hlt
    rw [hpos h0 hd]
    have h1 : (ts - n) / 3600000 = 0 := by omega
    have h2 : (ts - n) % 3600000 / 60000 = 0 := by omega
    rw [h1, h2]
    decide

/-- Half a minute before the scheduled time 30000 the popup shows "0h 0m"; 7500000 ms
before the scheduled time it shows "2h 5m"; at the scheduled time it shows "Due now". -/
theorem formatCountdown_hours_minutes_witness :
    (30000 : Int) ≠ 0 ∧ (0 : Int) < 30000 - 0 ∧ (30000 : Int) - 0 < 60000 ∧
      formatCountdown (some 30000) 0 = "0h 0m" ∧
      formatCountdown (some 7500000) 0 = "2h 5m" ∧
      formatCountdown (some 30000) 30000 = "Due now" :=
  ⟨by decide, by decide, by decide,
    (formatCountdown_hours_minutes 30000 0).2.2.2.2 (by decide) (by decide) (by decide),
    by decide, by decide⟩

end NaukriBooster
